import Mathlib

/-!
# Metasiberia: the kinematic player controller (`gui_client/PlayerPhysics.cpp`)

A shallow embedding of `PlayerPhysics` and the properties of its per-tick `update`.

Conventions of the embedding.

* `float` and `double` values are idealised as elements of a linearly ordered field `F`
  with exact arithmetic (`F = ℚ` for evaluation).  `std::sqrt` is a parameter `sqrt : F → F`.
* The Jolt character (`JPH::CharacterVirtual`) is a record of the observable state the
  controller reads and writes.  The Jolt operations that depend on the collision world
  (`UpdateGroundVelocity`, `ExtendedUpdate`, `Update`, the constructor) are fields of
  `PhysicsWorld`: every theorem holds for arbitrary behaviours of these operations.
* `jolt_character` is a nullable reference: `Option`.  Dereferencing a null reference is a
  fault, so an operation that dereferences it returns `Option` and `none` stands for the fault.
-/

namespace Metasiberia

/-! ## Vectors (glare-core `Vec3f`, `Vec3d`, `Vec4f`, `JPH::Vec3`) -/

/-- Three-component vector: `Vec3f` / `Vec3d` / `JPH::Vec3`. -/
structure Vec3 (F : Type) where
  x : F
  y : F
  z : F
deriving DecidableEq, Repr

/-- Four-component vector: `Vec4f`. -/
structure Vec4f (F : Type) where
  x : F
  y : F
  z : F
  w : F
deriving DecidableEq, Repr

section Vectors

variable {F : Type} [LinearOrderedField F]

/-- Vector `Vec3f(v)`: all three components equal to `v`. -/
def Vec3.splat (v : F) : Vec3 F := ⟨v, v, v⟩

/-- Vector sum, `operator +`. -/
def Vec3.add (a b : Vec3 F) : Vec3 F := ⟨a.x + b.x, a.y + b.y, a.z + b.z⟩

/-- Vector difference, `operator -`. -/
def Vec3.sub (a b : Vec3 F) : Vec3 F := ⟨a.x - b.x, a.y - b.y, a.z - b.z⟩

/-- Vector times scalar, `operator * (Real)`. -/
def Vec3.scale (a : Vec3 F) (s : F) : Vec3 F := ⟨a.x * s, a.y * s, a.z * s⟩

instance : Add (Vec3 F) := ⟨Vec3.add⟩
instance : Sub (Vec3 F) := ⟨Vec3.sub⟩
instance : HMul (Vec3 F) F (Vec3 F) := ⟨Vec3.scale⟩

/-- Dot product, `dot(a, b)`. -/
def dot (a b : Vec3 F) : F := a.x * b.x + a.y * b.y + a.z * b.z

/-- Squared length, `Vec3::length2()`. -/
def Vec3.length2 (a : Vec3 F) : F := a.x * a.x + a.y * a.y + a.z * a.z

/-- Length, `Vec3::length()`: the square root of the squared length. -/
def Vec3.length (sqrt : F → F) (a : Vec3 F) : F := sqrt a.length2

/-- Rescaling `Vec3::setLength(newlength)`: scales the vector by `newlength / length()`
(glare-core `vec3.h`, not under src; a zero vector is left alone). -/
def Vec3.setLength (sqrt : F → F) (a : Vec3 F) (newlength : F) : Vec3 F :=
  if a.length sqrt = 0 then a else a * (newlength / a.length sqrt)

/-- Unit vector `normalise(v)`: `v * (1 / v.length())` (glare-core `vec3.h`, not under src). -/
def normalise (sqrt : F → F) (v : Vec3 F) : Vec3 F := v * (1 / v.length sqrt)

/-- Projection `removeComponentInDir(v, unit_dir)`: `v - unit_dir * dot(v, unit_dir)`
(glare-core `vec3.h`, not under src). -/
def removeComponentInDir (v unit_dir : Vec3 F) : Vec3 F := v - unit_dir * dot v unit_dir

/-- Clamp `myClamp(x, lo, hi)`: `x` limited to the interval `[lo, hi]`
(glare-core `mathstypes.h`, not under src). -/
def myClamp (x lo hi : F) : F := max lo (min hi x)

/-- Conversion `Vec4f::toVec3`-style narrowing used by `toJoltVec3(const Vec4f&)`:
keeps x, y, z. -/
def Vec4f.xyz (v : Vec4f F) : Vec3 F := ⟨v.x, v.y, v.z⟩

/-- Conversion `toVec4fVec`: a direction vector, `w = 0`. -/
def toVec4fVec (v : Vec3 F) : Vec4f F := ⟨v.x, v.y, v.z, 0⟩

/-- Component-wise sum of two `Vec4f`. -/
def Vec4f.add (a b : Vec4f F) : Vec4f F := ⟨a.x + b.x, a.y + b.y, a.z + b.z, a.w + b.w⟩

/-! ## Constants of `PlayerPhysics.cpp` (lines 24–33, 54–56) -/

/-- How much faster you move when the run button is held down. -/
def run_factor : F := 5
/-- Walking speed. -/
def move_speed : F := 3
/-- Vertical speed given by a jump. -/
def jump_speed : F := 9 / 2
/-- The bound used in the air ("really max acceleration in air"). -/
def max_air_speed : F := 8
/-- Allow a jump command to be executed even if the player is not quite on the ground yet.
The source constant is the `float` literal `0.1f`, compared on line 282 with a `double`: its
value in that comparison is exactly `13421773 / 2^27 = 0.100000001490116...`, slightly above
one tenth.  The subtraction `cur_time - last_jump_time` of line 281 is taken as exact. -/
def JUMP_PERIOD : F := 13421773 / 134217728
/-- Radius of the capsule spheres. -/
def SPHERE_RAD : F := 3 / 10
/-- Height of the capsule cylinder. -/
def CYLINDER_HEIGHT : F := 13 / 10
/-- Height of the eye above the capsule bottom. -/
def EYE_HEIGHT : F := 167 / 100
/-- Cylinder height of the standing shape. -/
def cCharacterHeightStanding : F := CYLINDER_HEIGHT
/-- Cylinder height of the sitting shape. -/
def cCharacterHeightSitting : F := 3 / 10
/-- Capsule radius of both shapes. -/
def cCharacterRadiusStanding : F := SPHERE_RAD

end Vectors

/-! ## Data model -/

/-- Collision shape built by `init`: a capsule of the given cylinder half height and radius,
translated up by `offset_z`. -/
structure Shape (F : Type) where
  offset_z : F
  half_height : F
  radius : F
deriving DecidableEq, Repr

/-- Observable state of `JPH::CharacterVirtual`: what `GetPosition`, `GetLinearVelocity`,
`IsSupported`, `GetGroundVelocity`, `GetGroundNormal` and `GetShape` return. -/
structure JoltCharacter (F : Type) where
  position : Vec3 F
  linear_velocity : Vec3 F
  supported : Bool
  ground_velocity : Vec3 F
  ground_normal : Vec3 F
  shape : Shape F
deriving DecidableEq, Repr

/-- Setter `JPH::CharacterVirtual::SetLinearVelocity`. -/
def JoltCharacter.SetLinearVelocity {F : Type} (c : JoltCharacter F) (v : Vec3 F) :
    JoltCharacter F :=
  { c with linear_velocity := v }

/-- Setter `JPH::CharacterVirtual::SetPosition`. -/
def JoltCharacter.SetPosition {F : Type} (c : JoltCharacter F) (v : Vec3 F) :
    JoltCharacter F :=
  { c with position := v }

/-- Reference to the `PhysicsObject` that owns a contacted body (the pointer value). -/
structure ContactedEvent where
  ob : Nat
deriving DecidableEq, Repr

/-- Result of `JPH::BodyLockRead` on the contacted body, as seen by `OnContactAdded`:
`none` when the lock did not succeed, otherwise the `uint64` user data of the body. -/
abbrev BodyLock := Option Nat

/-- Events of one tick, `UpdateEvents`: default-constructed with `jumped = false`. -/
structure UpdateEvents where
  jumped : Bool := false
deriving DecidableEq, Repr

/-- Input `PlayerPhysicsInput` (declared in `PlayerPhysicsInput.h`, not under src): `update`
receives it and never reads it. -/
structure PlayerPhysicsInput where
deriving DecidableEq, Repr

/-- Camera basis read by the input callbacks: `getForwardsVec()` and `getRightVec()`. -/
structure CameraController (F : Type) where
  forwards_vec : Vec3 F
  right_vec : Vec3 F

/-- The collision world as the controller uses it: the behaviour of the Jolt operations
that query it.  Each world-dependent operation also reports, in order, the body locks of the
contacts it notifies to the listener (`OnContactAdded`). -/
structure PhysicsWorld (F : Type) where
  /-- Constructor `new JPH::CharacterVirtual(settings, position, rotation, system)`. -/
  CharacterVirtual : Shape F → Vec3 F → JoltCharacter F
  /-- Method `UpdateGroundVelocity()`. -/
  UpdateGroundVelocity : JoltCharacter F → JoltCharacter F
  /-- Method `ExtendedUpdate(dtime, gravity, settings, ...)`: sweep, stick-to-floor and
  stair-walk passes. -/
  ExtendedUpdate : F → JoltCharacter F → JoltCharacter F × List BodyLock
  /-- Method `Update(dtime, gravity, ..., body filter ignoring the given body, ...)`. -/
  Update : F → Nat → JoltCharacter F → JoltCharacter F × List BodyLock

/-- State of a `PlayerPhysics` controller. -/
structure PlayerPhysics (F : Type) where
  move_desired_vel : Vec3 F
  last_jump_time : F
  on_ground : Bool
  fly_mode : Bool
  last_runpressed : Bool
  campos_z_delta : F
  gravity_enabled : Bool
  last_xy_plane_vel_rel_ground : Vec3 F
  jolt_character : Option (JoltCharacter F)
  standing_shape : Option (Shape F)
  sitting_shape : Option (Shape F)
  contacted_events : List ContactedEvent

/-- What one call of `update` produces: the new controller state, the returned events and
the camera position written to `campos_out`. -/
structure UpdateResult (F : Type) where
  state : PlayerPhysics F
  events : UpdateEvents
  campos_out : Vec4f F

section Controller

variable {F : Type} [LinearOrderedField F]

/-! ## Construction, init, shutdown (lines 36–98) -/

/-- Constructor `PlayerPhysics::PlayerPhysics()`.  `last_xy_plane_vel_rel_ground` is not
initialised by the constructor: its initial value is the argument. -/
def PlayerPhysics.construct (uninit : Vec3 F) : PlayerPhysics F :=
  { move_desired_vel := ⟨0, 0, 0⟩
    last_jump_time := -1
    on_ground := false
    fly_mode := false
    last_runpressed := false
    campos_z_delta := 0
    gravity_enabled := true
    last_xy_plane_vel_rel_ground := uninit
    jolt_character := none
    standing_shape := none
    sitting_shape := none
    contacted_events := [] }

/-- Method `PlayerPhysics::init`. -/
def PlayerPhysics.init (p : PlayerPhysics F) (physics_world : PhysicsWorld F)
    (initial_player_pos : Vec3 F) : PlayerPhysics F :=
  let use_player_pos := initial_player_pos - ⟨0, 0, EYE_HEIGHT⟩
  let standing : Shape F :=
    ⟨1 / 2 * cCharacterHeightStanding + cCharacterRadiusStanding,
      1 / 2 * cCharacterHeightStanding, cCharacterRadiusStanding⟩
  let sitting : Shape F :=
    ⟨1 / 2 * cCharacterHeightSitting + cCharacterRadiusStanding,
      1 / 2 * cCharacterHeightSitting, cCharacterRadiusStanding⟩
  { p with
    standing_shape := some standing
    sitting_shape := some sitting
    jolt_character := some (physics_world.CharacterVirtual standing use_player_pos) }

/-- Method `PlayerPhysics::shutdown`. -/
def PlayerPhysics.shutdown (p : PlayerPhysics F) : PlayerPhysics F :=
  { p with jolt_character := none, standing_shape := none, sitting_shape := none }

/-! ## Accessors and setters (lines 115–145, 444–476) -/

/-- Method `PlayerPhysics::getCapsuleBottomPosition`: guarded, `Vec3d(0.0)` without a character. -/
def PlayerPhysics.getCapsuleBottomPosition (p : PlayerPhysics F) : Vec3 F :=
  match p.jolt_character with
  | some c => c.position
  | none => Vec3.splat 0

/-- Method `PlayerPhysics::setCapsuleBottomPosition`: guarded. -/
def PlayerPhysics.setCapsuleBottomPosition (p : PlayerPhysics F) (new_player_pos : Vec3 F)
    (linear_vel : Vec4f F) : PlayerPhysics F :=
  match p.jolt_character with
  | some c =>
    let c1 := c.SetPosition new_player_pos
    { p with jolt_character := some (c1.SetLinearVelocity linear_vel.xyz) }
  | none => p

/-- Method `PlayerPhysics::setEyePosition`.  The call on line 128 passes no velocity to
`setCapsuleBottomPosition`; the header with the default argument is not under src, so the
velocity that call receives is the parameter `default_linear_vel`. -/
def PlayerPhysics.setEyePosition (default_linear_vel : Vec4f F) (p : PlayerPhysics F)
    (new_player_pos : Vec3 F) (_linear_vel : Vec4f F) : PlayerPhysics F :=
  p.setCapsuleBottomPosition (new_player_pos - ⟨0, 0, EYE_HEIGHT⟩) default_linear_vel

/-- Method `PlayerPhysics::getEyeHeight`. -/
def PlayerPhysics.getEyeHeight (_p : PlayerPhysics F) : F := EYE_HEIGHT

/-- Method `PlayerPhysics::getLinearVel`: dereferences `jolt_character` without a check. -/
def PlayerPhysics.getLinearVel (p : PlayerPhysics F) : Option (Vec4f F) :=
  match p.jolt_character with
  | some c => some (toVec4fVec c.linear_velocity)
  | none => none

/-- Method `PlayerPhysics::setLinearVel`: guarded. -/
def PlayerPhysics.setLinearVel (p : PlayerPhysics F) (new_linear_vel : Vec4f F) :
    PlayerPhysics F :=
  match p.jolt_character with
  | some c => { p with jolt_character := some (c.SetLinearVelocity new_linear_vel.xyz) }
  | none => p

/-- Method `PlayerPhysics::addToLinearVel`: guarded; inside the guard it calls
`getLinearVel`. -/
def PlayerPhysics.addToLinearVel (p : PlayerPhysics F) (delta_v : Vec4f F) :
    Option (PlayerPhysics F) :=
  match p.jolt_character with
  | some c =>
    match p.getLinearVel with
    | some v =>
      some { p with jolt_character := some (c.SetLinearVelocity (v.add delta_v).xyz) }
    | none => none
  | none => some p

/-- Method `PlayerPhysics::isMoveDesiredVelNonZero`. -/
def PlayerPhysics.isMoveDesiredVelNonZero (p : PlayerPhysics F) : Bool :=
  decide (p.move_desired_vel.length2 ≠ 0)

/-- Method `PlayerPhysics::zeroMoveDesiredVel`. -/
def PlayerPhysics.zeroMoveDesiredVel (p : PlayerPhysics F) : PlayerPhysics F :=
  { p with move_desired_vel := ⟨0, 0, 0⟩ }

/-! ## Input callbacks (lines 148–196) -/

/-- Function `doRunFactor`. -/
def doRunFactor (runpressed : Bool) : F := if runpressed then run_factor else 1

/-- Method `PlayerPhysics::processMoveForwards`. -/
def PlayerPhysics.processMoveForwards (p : PlayerPhysics F) (factor : F) (runpressed : Bool)
    (cam : CameraController F) : PlayerPhysics F :=
  { p with
    last_runpressed := runpressed
    move_desired_vel :=
      p.move_desired_vel + cam.forwards_vec * factor * (move_speed : F) * (doRunFactor runpressed : F)
    gravity_enabled := true }

/-- Method `PlayerPhysics::processStrafeRight`. -/
def PlayerPhysics.processStrafeRight (p : PlayerPhysics F) (factor : F) (runpressed : Bool)
    (cam : CameraController F) : PlayerPhysics F :=
  { p with
    last_runpressed := runpressed
    move_desired_vel :=
      p.move_desired_vel + cam.right_vec * factor * (move_speed : F) * (doRunFactor runpressed : F)
    gravity_enabled := true }

/-- Method `PlayerPhysics::processMoveUp`. -/
def PlayerPhysics.processMoveUp (p : PlayerPhysics F) (factor : F) (runpressed : Bool)
    (_cam : CameraController F) : PlayerPhysics F :=
  { p with
    last_runpressed := runpressed
    move_desired_vel :=
      if p.fly_mode then
        p.move_desired_vel + (⟨0, 0, 1⟩ : Vec3 F) * factor * (move_speed : F) * (doRunFactor runpressed : F)
      else p.move_desired_vel }

/-- Method `PlayerPhysics::processJump`: latches the request time. -/
def PlayerPhysics.processJump (p : PlayerPhysics F) (_cam : CameraController F)
    (cur_time : F) : PlayerPhysics F :=
  { p with last_jump_time := cur_time, gravity_enabled := true }

/-- Method `PlayerPhysics::setFlyModeEnabled`. -/
def PlayerPhysics.setFlyModeEnabled (p : PlayerPhysics F) (enabled : Bool) : PlayerPhysics F :=
  { p with fly_mode := enabled }

/-! ## Contact listener (lines 479–492) -/

/-- Listener `PlayerPhysics::OnContactAdded`, given the outcome of the body lock. -/
def PlayerPhysics.OnContactAdded (p : PlayerPhysics F) (lock : BodyLock) : PlayerPhysics F :=
  match lock with
  | some user_data =>
    if user_data ≠ 0 then
      { p with contacted_events := p.contacted_events ++ [ContactedEvent.mk user_data] }
    else p
  | none => p

/-- The listener run on each contact notified during one Jolt update, in order. -/
def PlayerPhysics.notifyContacts (p : PlayerPhysics F) (locks : List BodyLock) :
    PlayerPhysics F :=
  locks.foldl PlayerPhysics.OnContactAdded p

/-! ## The per-tick update (lines 224–429) -/

/-- Lines 233–234: the desired velocity with its vertical component set to zero. -/
def parralel_vel (p : PlayerPhysics F) : Vec3 F := { p.move_desired_vel with z := 0 }

/-- Lines 246–247: the acceleration used in the air: the horizontal desired velocity, set to
length `max_air_speed` when it is longer than that. -/
def airAccel (sqrt : F → F) (pv : Vec3 F) : Vec3 F :=
  if pv.length sqrt > max_air_speed then pv.setLength sqrt max_air_speed else pv

/-- Lines 238–239: the character is supported and not moving away from the ground. -/
def groundedSnap (c : JoltCharacter F) (vel : Vec3 F) : Bool :=
  c.supported && decide (vel.z - c.ground_velocity.z < 1 / 10)

/-- Lines 233–259, the not-flying branch: `vel` is the velocity read on line 228 and `c` the
character after `UpdateGroundVelocity()`. -/
def notFlyingVel (sqrt : F → F) (p : PlayerPhysics F) (c : JoltCharacter F) (vel : Vec3 F)
    (dtime : F) : Vec3 F :=
  let vel1 :=
    if groundedSnap c vel then parralel_vel p + c.ground_velocity
    else vel + airAccel sqrt (parralel_vel p) * dtime
  let vel2 := if p.gravity_enabled then vel1 + (⟨0, 0, -981 / 100⟩ : Vec3 F) * dtime else vel1
  if vel2.z < -100 then { vel2 with z := -100 } else vel2

/-- Lines 264–270, the flying branch. -/
def flyingVel (sqrt : F → F) (p : PlayerPhysics F) (vel : Vec3 F) (dtime : F) : Vec3 F :=
  let speed := vel.length sqrt
  let desired_vel :=
    if p.move_desired_vel.length sqrt < 1 / 10000 then Vec3.splat 0
    else normalise sqrt p.move_desired_vel * speed
  let accel := p.move_desired_vel * (3 : F) + (desired_vel - vel) * (2 : F)
  vel + accel * dtime

/-- Line 236: `UpdateGroundVelocity()` is called on the not-flying branch only. -/
def groundSampled (physics_world : PhysicsWorld F) (p : PlayerPhysics F)
    (c : JoltCharacter F) : JoltCharacter F :=
  if p.fly_mode then c else physics_world.UpdateGroundVelocity c

/-- Lines 231–271: the movement forces. -/
def movementVel (sqrt : F → F) (p : PlayerPhysics F) (c : JoltCharacter F) (vel : Vec3 F)
    (dtime : F) : Vec3 F :=
  if !p.fly_mode then notFlyingVel sqrt p c vel dtime else flyingVel sqrt p vel dtime

/-- Lines 273–275: the decay of the camera offset, snapped to zero below `1.0e-5`. -/
def decayCamposZDelta (campos_z_delta dtime : F) : F :=
  let d := campos_z_delta - 20 * dtime * campos_z_delta
  if |d| < 1 / 100000 then 0 else d

/-- Lines 281–283: the jump condition. -/
def jumpConsumed (p : PlayerPhysics F) (c : JoltCharacter F) (cur_time : F) : Bool :=
  decide (cur_time - p.last_jump_time < JUMP_PERIOD) && c.supported

/-- Lines 289–295: the velocity of a jump. -/
def jumpVel (p : PlayerPhysics F) (c : JoltCharacter F) (vel : Vec3 F) : Vec3 F :=
  let ground_normal := c.ground_normal
  if p.fly_mode then vel + ⟨0, 0, jump_speed⟩
  else removeComponentInDir p.move_desired_vel ground_normal + c.ground_velocity
    + ⟨0, 0, jump_speed⟩

/-- State of `update` between line 302 and line 304: the controller fields written so far,
the character as `SetLinearVelocity(vel)` leaves it, and the events. -/
structure PreSweep (F : Type) where
  state : PlayerPhysics F
  character : JoltCharacter F
  events : UpdateEvents

/-- Lines 226–302 of `update`, for the live character `c`. -/
def update_pre (sqrt : F → F) (p : PlayerPhysics F) (c : JoltCharacter F)
    (physics_world : PhysicsWorld F) (dtime cur_time : F) : PreSweep F :=
  let vel0 := c.linear_velocity
  let c1 := groundSampled physics_world p c
  let vel := movementVel sqrt p c1 vel0 dtime
  let campos_z_delta := decayCamposZDelta p.campos_z_delta dtime
  let on_ground := c1.supported
    && decide (c1.linear_velocity.z - c1.ground_velocity.z < 1 / 10)
  let jump := jumpConsumed p c1 cur_time
  { state :=
      { p with
        campos_z_delta := campos_z_delta
        on_ground := if jump then false else on_ground
        last_jump_time := if jump then -1 else p.last_jump_time }
    character := c1.SetLinearVelocity (if jump then jumpVel p c1 vel else vel)
    events := { jumped := jump } }

/-- Lines 304–428 of `update`. -/
def update_post (s : PreSweep F) (physics_world : PhysicsWorld F) (dtime : F) :
    UpdateResult F :=
  let r := physics_world.ExtendedUpdate dtime s.character
  let c3 := r.1
  let pre_stair_walk_position := c3.position
  let dz := c3.position.z - pre_stair_walk_position.z
  let campos_z_delta := myClamp (s.state.campos_z_delta + dz) (-3 / 10) (3 / 10)
  let rel :=
    if c3.supported then c3.linear_velocity - c3.ground_velocity else c3.linear_velocity
  let char_pos := c3.position
  { state :=
      PlayerPhysics.notifyContacts
        { s.state with
          campos_z_delta := campos_z_delta
          last_xy_plane_vel_rel_ground := { rel with z := 0 }
          jolt_character := some c3 }
        r.2
    events := s.events
    campos_out := ⟨char_pos.x, char_pos.y, char_pos.z + EYE_HEIGHT - campos_z_delta, 1⟩ }

/-- Method `PlayerPhysics::update`: line 228 dereferences `jolt_character` without a check. -/
def PlayerPhysics.update (sqrt : F → F) (p : PlayerPhysics F) (physics_world : PhysicsWorld F)
    (_physics_input : PlayerPhysicsInput) (dtime cur_time : F) : Option (UpdateResult F) :=
  match p.jolt_character with
  | none => none
  | some c => some (update_post (update_pre sqrt p c physics_world dtime cur_time)
      physics_world dtime)

/-- Method `PlayerPhysics::updateForInVehicle`: dereferences `jolt_character` without a
check. -/
def PlayerPhysics.updateForInVehicle (p : PlayerPhysics F) (physics_world : PhysicsWorld F)
    (_physics_input : PlayerPhysicsInput) (dtime : F) (vehicle_body_id : Nat) :
    Option (PlayerPhysics F) :=
  match p.jolt_character with
  | none => none
  | some c =>
    let r := physics_world.Update dtime vehicle_body_id c
    some (PlayerPhysics.notifyContacts { p with jolt_character := some r.1 } r.2)

/-- One call of `update` in a sequence: its arguments. -/
structure UpdateCall (F : Type) where
  physics_world : PhysicsWorld F
  physics_input : PlayerPhysicsInput
  dtime : F
  cur_time : F

/-- A sequence of `update` calls, each on the state the previous one left: the final state
and the events returned by each call, in order. -/
def runUpdates (sqrt : F → F) :
    PlayerPhysics F → List (UpdateCall F) → Option (PlayerPhysics F × List UpdateEvents)
  | p, [] => some (p, [])
  | p, call :: rest =>
    match p.update sqrt call.physics_world call.physics_input call.dtime call.cur_time with
    | none => none
    | some r =>
      match runUpdates sqrt r.state rest with
      | none => none
      | some (p1, evs) => some (p1, r.events :: evs)

end Controller

/-! ## Concrete inputs over `ℚ` used by the evaluations below -/

/-- Square root on `ℚ`, exact on squares of rationals: the root of the numerator over the
root of the denominator. -/
def sqrtQ (q : ℚ) : ℚ := (Nat.sqrt q.num.toNat : ℚ) / (Nat.sqrt q.den : ℚ)

/-- A world whose Jolt updates leave the character as it is and notify no contact. -/
def idWorld : PhysicsWorld ℚ :=
  { CharacterVirtual := fun sh pos => ⟨pos, ⟨0, 0, 0⟩, false, ⟨0, 0, 0⟩, ⟨0, 0, 1⟩, sh⟩
    UpdateGroundVelocity := fun c => c
    ExtendedUpdate := fun _ c => (c, [])
    Update := fun _ _ c => (c, []) }

/-- A camera looking along the x axis. -/
def camX : CameraController ℚ := { forwards_vec := ⟨1, 0, 0⟩, right_vec := ⟨0, -1, 0⟩ }

/-- A live controller whose character currently is `c`: a constructed controller with the
character handle set. -/
def liveWith (c : JoltCharacter ℚ) : PlayerPhysics ℚ :=
  { PlayerPhysics.construct ⟨0, 0, 0⟩ with jolt_character := some c }

/-- A character at rest, supported by stationary ground that slopes up along x: the unit
ground normal is `(3/5, 0, 4/5)`. -/
def slopeChar : JoltCharacter ℚ :=
  { position := ⟨0, 0, 0⟩
    linear_velocity := ⟨0, 0, 0⟩
    supported := true
    ground_velocity := ⟨0, 0, 0⟩
    ground_normal := ⟨3 / 5, 0, 4 / 5⟩
    shape := ⟨19 / 20, 13 / 20, 3 / 10⟩ }

/-- The controller standing on the slope, after walking forwards was requested
(`move_desired_vel = (3, 0, 0)`) and a jump was requested at time 0. -/
def slopePlayer : PlayerPhysics ℚ :=
  ((liveWith slopeChar).processMoveForwards 1 false camX).processJump camX 0

/-- A character at rest on flat stationary ground. -/
def flatChar : JoltCharacter ℚ :=
  { position := ⟨0, 0, 0⟩
    linear_velocity := ⟨0, 0, 0⟩
    supported := true
    ground_velocity := ⟨0, 0, 0⟩
    ground_normal := ⟨0, 0, 1⟩
    shape := ⟨19 / 20, 13 / 20, 3 / 10⟩ }

/-- A call of `update` at time `t` with a frame time of 1/60 in the world `idWorld`. -/
def callAt (t : ℚ) : UpdateCall ℚ :=
  { physics_world := idWorld, physics_input := {}, dtime := 1 / 60, cur_time := t }

/-- The controller on flat ground with a camera offset of 1/20 still to decay. -/
def offsetPlayer : PlayerPhysics ℚ := { liveWith flatChar with campos_z_delta := 1 / 20 }

/-- A character riding a platform that descends at 200 units/s: supported, at rest relative to
the platform. -/
def descendingChar : JoltCharacter ℚ :=
  { position := ⟨0, 0, 0⟩
    linear_velocity := ⟨0, 0, -200⟩
    supported := true
    ground_velocity := ⟨0, 0, -200⟩
    ground_normal := ⟨0, 0, 1⟩
    shape := ⟨19 / 20, 13 / 20, 3 / 10⟩ }

/-- A character in the air, falling. -/
def airChar : JoltCharacter ℚ :=
  { position := ⟨0, 0, 10⟩
    linear_velocity := ⟨0, 0, -1⟩
    supported := false
    ground_velocity := ⟨0, 0, 0⟩
    ground_normal := ⟨0, 0, 1⟩
    shape := ⟨19 / 20, 13 / 20, 3 / 10⟩ }

/-- A camera looking along `(3/5, 4/5, 0)`. -/
def cam35 : CameraController ℚ := { forwards_vec := ⟨3 / 5, 4 / 5, 0⟩, right_vec := ⟨4 / 5, -3 / 5, 0⟩ }

/-- The controller in the air after running forwards was requested:
`move_desired_vel = (9, 12, 0)`, of length 15. -/
def airPlayer : PlayerPhysics ℚ := (liveWith airChar).processMoveForwards 1 true cam35

/-- The primitive sweep of the example world `stairWorld`: the character moves horizontally
by its velocity times the frame time (the floor stops the vertical motion). -/
def sweepPass (dtime : ℚ) (c : JoltCharacter ℚ) : JoltCharacter ℚ :=
  { c with position :=
      ⟨c.position.x + c.linear_velocity.x * dtime, c.position.y + c.linear_velocity.y * dtime,
        c.position.z⟩ }

/-- The stair-walk pass of the example world `stairWorld`: the character is lifted by 1/5 onto
a step. -/
def stairPass (c : JoltCharacter ℚ) : JoltCharacter ℚ :=
  { c with position := c.position + ⟨0, 0, 1 / 5⟩ }

/-- A world in which every `ExtendedUpdate` sweeps and then walks up a step of height 1/5. -/
def stairWorld : PhysicsWorld ℚ :=
  { idWorld with ExtendedUpdate := fun dtime c => (stairPass (sweepPass dtime c), []) }

/-- The controller on flat ground after walking forwards was requested. -/
def walkingPlayer : PlayerPhysics ℚ := (liveWith flatChar).processMoveForwards 1 false camX

/-- The controller on flat ground after a slow walk forwards was requested:
`move_desired_vel = (1, 0, 0)`. -/
def strollPlayer : PlayerPhysics ℚ := (liveWith flatChar).processMoveForwards (1 / 3) false camX

/-- A world in which every `ExtendedUpdate` carries the character off a ledge: after it the
character is no longer supported. -/
def ledgeWorld : PhysicsWorld ℚ :=
  { idWorld with ExtendedUpdate := fun _ c => ({ c with supported := false }, []) }

/-- A live controller that already has one contact with the owner 7 queued. -/
def contactPlayer : PlayerPhysics ℚ :=
  { liveWith flatChar with contacted_events := [ContactedEvent.mk 7] }

/-- A character in the air, falling at 200 units/s. -/
def fastFallChar : JoltCharacter ℚ :=
  { position := ⟨0, 0, 1000⟩
    linear_velocity := ⟨0, 0, -200⟩
    supported := false
    ground_velocity := ⟨0, 0, 0⟩
    ground_normal := ⟨0, 0, 1⟩
    shape := ⟨19 / 20, 13 / 20, 3 / 10⟩ }

/-- The controller falling fast with fly mode switched on and no input. -/
def flyingPlayer : PlayerPhysics ℚ := (liveWith fastFallChar).setFlyModeEnabled true

/-- A character in the air moving horizontally at speed 5. -/
def glideChar : JoltCharacter ℚ :=
  { position := ⟨0, 0, 10⟩
    linear_velocity := ⟨3, 4, 0⟩
    supported := false
    ground_velocity := ⟨0, 0, 0⟩
    ground_normal := ⟨0, 0, 1⟩
    shape := ⟨19 / 20, 13 / 20, 3 / 10⟩ }

/-- The controller gliding in fly mode after moving up was requested:
`move_desired_vel = (0, 0, 3)`. -/
def flyUpPlayer : PlayerPhysics ℚ :=
  ((liveWith glideChar).setFlyModeEnabled true).processMoveUp 1 false camX

/-! ## Theorems -/

section Theorems

variable {F : Type} [LinearOrderedField F]

/-! ### Helper lemmas on the vector operations and the pieces of `update` -/

@[simp] theorem Vec3.add_def (a b : Vec3 F) :
    a + b = ⟨a.x + b.x, a.y + b.y, a.z + b.z⟩ := rfl

@[simp] theorem Vec3.sub_def (a b : Vec3 F) :
    a - b = ⟨a.x - b.x, a.y - b.y, a.z - b.z⟩ := rfl

@[simp] theorem Vec3.scale_def (a : Vec3 F) (s : F) :
    a * s = ⟨a.x * s, a.y * s, a.z * s⟩ := rfl

theorem groundedSnap_true {c : JoltCharacter F} {vel : Vec3 F} (h1 : c.supported = true)
    (h2 : vel.z - c.ground_velocity.z < 1 / 10) : groundedSnap c vel = true := by
  unfold groundedSnap
  rw [h1, decide_eq_true h2]
  rfl

theorem jumpConsumed_eq_true_iff (p : PlayerPhysics F) (c : JoltCharacter F) (cur_time : F) :
    jumpConsumed p c cur_time = true ↔
      cur_time - p.last_jump_time < JUMP_PERIOD ∧ c.supported = true := by
  unfold jumpConsumed
  rw [Bool.and_eq_true, decide_eq_true_iff]

theorem jumpConsumed_eq_false_iff (p : PlayerPhysics F) (c : JoltCharacter F) (cur_time : F) :
    jumpConsumed p c cur_time = false ↔
      ¬ (cur_time - p.last_jump_time < JUMP_PERIOD ∧ c.supported = true) := by
  rw [← jumpConsumed_eq_true_iff, Bool.not_eq_true]

/-- The velocity passed to `SetLinearVelocity` on line 302. -/
theorem update_pre_velocity (sqrt : F → F) (p : PlayerPhysics F) (c : JoltCharacter F)
    (W : PhysicsWorld F) (dtime cur_time : F) :
    (update_pre sqrt p c W dtime cur_time).character.linear_velocity =
      if jumpConsumed p (groundSampled W p c) cur_time = true then
        jumpVel p (groundSampled W p c)
          (movementVel sqrt p (groundSampled W p c) c.linear_velocity dtime)
      else movementVel sqrt p (groundSampled W p c) c.linear_velocity dtime := rfl

/-- Gravity and the fall cap leave the x component alone. -/
theorem notFlyingVel_x (sqrt : F → F) (p : PlayerPhysics F) (c : JoltCharacter F) (vel : Vec3 F)
    (dtime : F) :
    (notFlyingVel sqrt p c vel dtime).x =
      (if groundedSnap c vel = true then parralel_vel p + c.ground_velocity
        else vel + airAccel sqrt (parralel_vel p) * dtime).x := by
  unfold notFlyingVel
  dsimp only
  split_ifs <;> simp

/-- Gravity and the fall cap leave the y component alone. -/
theorem notFlyingVel_y (sqrt : F → F) (p : PlayerPhysics F) (c : JoltCharacter F) (vel : Vec3 F)
    (dtime : F) :
    (notFlyingVel sqrt p c vel dtime).y =
      (if groundedSnap c vel = true then parralel_vel p + c.ground_velocity
        else vel + airAccel sqrt (parralel_vel p) * dtime).y := by
  unfold notFlyingVel
  dsimp only
  split_ifs <;> simp

theorem groundSampled_not_flying {G : Type} (W : PhysicsWorld G) (p : PlayerPhysics G)
    (c : JoltCharacter G) (hfly : p.fly_mode = false) :
    groundSampled W p c = W.UpdateGroundVelocity c := by
  simp [groundSampled, hfly]

theorem groundSampled_flying {G : Type} (W : PhysicsWorld G) (p : PlayerPhysics G)
    (c : JoltCharacter G) (hfly : p.fly_mode = true) :
    groundSampled W p c = c := by
  simp [groundSampled, hfly]

theorem movementVel_not_flying (sqrt : F → F) (p : PlayerPhysics F) (c : JoltCharacter F)
    (vel : Vec3 F) (dtime : F) (hfly : p.fly_mode = false) :
    movementVel sqrt p c vel dtime = notFlyingVel sqrt p c vel dtime := by
  simp [movementVel, hfly]

theorem jumpVel_not_flying (p : PlayerPhysics F) (c : JoltCharacter F)
    (vel : Vec3 F) (hfly : p.fly_mode = false) :
    jumpVel p c vel =
      removeComponentInDir p.move_desired_vel c.ground_normal + c.ground_velocity
        + ⟨0, 0, jump_speed⟩ := by
  simp [jumpVel, hfly]

/-! ### C1: grounded snap -/

/-- C1 (as amended): on a not-flying tick on which the character is supported and its
vertical velocity relative to the ground is below 0.1, the horizontal components of the
velocity handed to `SetLinearVelocity` are those of `move_desired_vel` plus those of the
ground velocity whenever no jump is consumed on that tick (request age not below
`JUMP_PERIOD`); when a jump is consumed they are those of `move_desired_vel` minus its
component along the ground normal, plus those of the ground velocity.  Neither expression
mentions `dtime` or the previous horizontal velocity. -/
theorem grounded_snap_horizontal (sqrt : F → F) (p : PlayerPhysics F) (c : JoltCharacter F)
    (W : PhysicsWorld F) (dtime cur_time : F)
    (hfly : p.fly_mode = false)
    (hsup : (W.UpdateGroundVelocity c).supported = true)
    (hrel : c.linear_velocity.z - (W.UpdateGroundVelocity c).ground_velocity.z < 1 / 10) :
    (¬ cur_time - p.last_jump_time < JUMP_PERIOD →
      (update_pre sqrt p c W dtime cur_time).character.linear_velocity.x
          = p.move_desired_vel.x + (W.UpdateGroundVelocity c).ground_velocity.x ∧
      (update_pre sqrt p c W dtime cur_time).character.linear_velocity.y
          = p.move_desired_vel.y + (W.UpdateGroundVelocity c).ground_velocity.y) ∧
    (cur_time - p.last_jump_time < JUMP_PERIOD →
      (update_pre sqrt p c W dtime cur_time).character.linear_velocity.x
          = p.move_desired_vel.x
            - (W.UpdateGroundVelocity c).ground_normal.x
              * dot p.move_desired_vel (W.UpdateGroundVelocity c).ground_normal
            + (W.UpdateGroundVelocity c).ground_velocity.x ∧
      (update_pre sqrt p c W dtime cur_time).character.linear_velocity.y
          = p.move_desired_vel.y
            - (W.UpdateGroundVelocity c).ground_normal.y
              * dot p.move_desired_vel (W.UpdateGroundVelocity c).ground_normal
            + (W.UpdateGroundVelocity c).ground_velocity.y) := by
  rw [update_pre_velocity, groundSampled_not_flying W p c hfly,
    movementVel_not_flying sqrt p _ _ _ hfly, jumpVel_not_flying p _ _ hfly]
  constructor
  · intro hj
    have hno : jumpConsumed p (W.UpdateGroundVelocity c) cur_time = false := by
      rw [jumpConsumed_eq_false_iff]
      exact fun h => hj h.1
    rw [hno, if_neg Bool.false_ne_true, notFlyingVel_x, notFlyingVel_y,
      if_pos (groundedSnap_true hsup hrel)]
    simp [parralel_vel]
  · intro hj
    have hyes : jumpConsumed p (W.UpdateGroundVelocity c) cur_time = true :=
      (jumpConsumed_eq_true_iff _ _ _).2 ⟨hj, hsup⟩
    rw [if_pos hyes]
    simp [removeComponentInDir]

/-- Witness of `grounded_snap_horizontal`: the controller on the slope walking forwards, at
time 1, when the jump request of time 0 is stale: the hypotheses hold and the velocity handed
over is horizontally the desired velocity plus the ground velocity. -/
theorem grounded_snap_horizontal_witness :
    slopePlayer.fly_mode = false ∧
    (idWorld.UpdateGroundVelocity slopeChar).supported = true ∧
    slopeChar.linear_velocity.z - (idWorld.UpdateGroundVelocity slopeChar).ground_velocity.z
      < 1 / 10 ∧
    ¬ (1 : ℚ) - slopePlayer.last_jump_time < JUMP_PERIOD ∧
    (update_pre sqrtQ slopePlayer slopeChar idWorld (1 / 60) 1).character.linear_velocity.x
      = slopePlayer.move_desired_vel.x
        + (idWorld.UpdateGroundVelocity slopeChar).ground_velocity.x ∧
    (update_pre sqrtQ slopePlayer slopeChar idWorld (1 / 60) 1).character.linear_velocity.y
      = slopePlayer.move_desired_vel.y
        + (idWorld.UpdateGroundVelocity slopeChar).ground_velocity.y :=
  have hrel : slopeChar.linear_velocity.z
      - (idWorld.UpdateGroundVelocity slopeChar).ground_velocity.z < 1 / 10 := by
    norm_num [slopeChar, idWorld]
  have hstale : ¬ (1 : ℚ) - slopePlayer.last_jump_time < JUMP_PERIOD := by
    norm_num [slopePlayer, PlayerPhysics.processJump, JUMP_PERIOD]
  ⟨rfl, rfl, hrel, hstale,
    (grounded_snap_horizontal sqrtQ slopePlayer slopeChar idWorld (1 / 60) 1 rfl rfl hrel).1
      hstale⟩

/-- C1 (as stated) fails on a tick that consumes a jump on sloping ground: the controller on
the slope is not flying, supported, at rest relative to the ground, and the jump requested at
time 0 is consumed at time 1/20; the x component handed over is 48/25, while
`move_desired_vel.x` plus the ground velocity x is 3. -/
theorem grounded_snap_counterexample :
    slopePlayer.jolt_character = some slopeChar ∧
    slopePlayer.fly_mode = false ∧
    (idWorld.UpdateGroundVelocity slopeChar).supported = true ∧
    slopeChar.linear_velocity.z - (idWorld.UpdateGroundVelocity slopeChar).ground_velocity.z
      < 1 / 10 ∧
    (update_pre sqrtQ slopePlayer slopeChar idWorld (1 / 60) (1 / 20)).character.linear_velocity.x
      = 48 / 25 ∧
    slopePlayer.move_desired_vel.x + (idWorld.UpdateGroundVelocity slopeChar).ground_velocity.x
      = 3 ∧
    (update_pre sqrtQ slopePlayer slopeChar idWorld (1 / 60) (1 / 20)).character.linear_velocity.x
      ≠ slopePlayer.move_desired_vel.x
        + (idWorld.UpdateGroundVelocity slopeChar).ground_velocity.x := by
  have key : ∀ a b : ℚ, a = 48 / 25 → b = 3 → a = 48 / 25 ∧ b = 3 ∧ a ≠ b := by
    intro a b ha hb
    refine ⟨ha, hb, ?_⟩
    rw [ha, hb]
    norm_num
  refine ⟨rfl, rfl, rfl, by norm_num [slopeChar, idWorld], key _ _ ?_ ?_⟩
  · rw [update_pre_velocity, groundSampled_not_flying _ _ _ rfl,
      if_pos ((jumpConsumed_eq_true_iff _ _ _).2
        ⟨by norm_num [slopePlayer, PlayerPhysics.processJump, JUMP_PERIOD], rfl⟩),
      jumpVel_not_flying _ _ _ rfl]
    norm_num [removeComponentInDir, dot, slopePlayer, PlayerPhysics.processJump,
      PlayerPhysics.processMoveForwards, liveWith, PlayerPhysics.construct, camX, move_speed,
      doRunFactor, idWorld, slopeChar]
  · norm_num [slopePlayer, PlayerPhysics.processJump, PlayerPhysics.processMoveForwards,
      liveWith, PlayerPhysics.construct, camX, move_speed, doRunFactor, idWorld, slopeChar]

/-! ### Helper lemmas on `update` as a whole -/

/-- The listener changes `contacted_events` only. -/
theorem OnContactAdded_eq {G : Type} (p : PlayerPhysics G) (lock : BodyLock) :
    ∃ evs, p.OnContactAdded lock = { p with contacted_events := evs } := by
  unfold PlayerPhysics.OnContactAdded
  cases lock with
  | none => exact ⟨p.contacted_events, rfl⟩
  | some user_data =>
    by_cases h : user_data ≠ 0
    · exact ⟨_, if_pos h⟩
    · exact ⟨p.contacted_events, if_neg h⟩

/-- The listener calls of one Jolt update change `contacted_events` only. -/
theorem notifyContacts_eq {G : Type} (p : PlayerPhysics G) (locks : List BodyLock) :
    ∃ evs, p.notifyContacts locks = { p with contacted_events := evs } := by
  induction locks generalizing p with
  | nil => exact ⟨p.contacted_events, rfl⟩
  | cons lock rest ih =>
    obtain ⟨evs1, h1⟩ := OnContactAdded_eq p lock
    obtain ⟨evs2, h2⟩ := ih (p.OnContactAdded lock)
    refine ⟨evs2, ?_⟩
    show PlayerPhysics.notifyContacts (p.OnContactAdded lock) rest = _
    rw [h2, h1]

/-- On a live controller `update` returns, and its result is that of the two halves. -/
theorem update_of_live (sqrt : F → F) (p : PlayerPhysics F) (c : JoltCharacter F)
    (W : PhysicsWorld F) (input : PlayerPhysicsInput) (dtime cur_time : F)
    (hlive : p.jolt_character = some c) :
    p.update sqrt W input dtime cur_time =
      some (update_post (update_pre sqrt p c W dtime cur_time) W dtime) := by
  unfold PlayerPhysics.update
  rw [hlive]

theorem update_post_events {G : Type} [LinearOrderedField G] (s : PreSweep G)
    (W : PhysicsWorld G) (dtime : G) : (update_post s W dtime).events = s.events := rfl

/-- The state after lines 304–428: the stair delta `dz` is the difference of two reads of the
same position, the camera offset is the clamped decayed offset, and the listener adds to
`contacted_events`. -/
theorem update_post_state (s : PreSweep F) (W : PhysicsWorld F) (dtime : F) :
    ∃ evs, (update_post s W dtime).state =
      { s.state with
        campos_z_delta := myClamp s.state.campos_z_delta (-3 / 10) (3 / 10)
        last_xy_plane_vel_rel_ground :=
          { (if (W.ExtendedUpdate dtime s.character).1.supported = true then
              (W.ExtendedUpdate dtime s.character).1.linear_velocity
                - (W.ExtendedUpdate dtime s.character).1.ground_velocity
            else (W.ExtendedUpdate dtime s.character).1.linear_velocity) with z := 0 }
        jolt_character := some (W.ExtendedUpdate dtime s.character).1
        contacted_events := evs } := by
  unfold update_post
  dsimp only
  rw [sub_self, add_zero]
  exact notifyContacts_eq _ _

theorem update_post_last_jump_time (s : PreSweep F) (W : PhysicsWorld F) (dtime : F) :
    (update_post s W dtime).state.last_jump_time = s.state.last_jump_time := by
  obtain ⟨evs, h⟩ := update_post_state s W dtime
  rw [h]

theorem update_post_on_ground (s : PreSweep F) (W : PhysicsWorld F) (dtime : F) :
    (update_post s W dtime).state.on_ground = s.state.on_ground := by
  obtain ⟨evs, h⟩ := update_post_state s W dtime
  rw [h]

theorem update_post_fly_mode (s : PreSweep F) (W : PhysicsWorld F) (dtime : F) :
    (update_post s W dtime).state.fly_mode = s.state.fly_mode := by
  obtain ⟨evs, h⟩ := update_post_state s W dtime
  rw [h]

theorem update_post_jolt_character (s : PreSweep F) (W : PhysicsWorld F) (dtime : F) :
    (update_post s W dtime).state.jolt_character
      = some (W.ExtendedUpdate dtime s.character).1 := by
  obtain ⟨evs, h⟩ := update_post_state s W dtime
  rw [h]

theorem update_post_campos_z_delta (s : PreSweep F) (W : PhysicsWorld F) (dtime : F) :
    (update_post s W dtime).state.campos_z_delta
      = myClamp s.state.campos_z_delta (-3 / 10) (3 / 10) := by
  obtain ⟨evs, h⟩ := update_post_state s W dtime
  rw [h]

theorem update_pre_jumped (sqrt : F → F) (p : PlayerPhysics F) (c : JoltCharacter F)
    (W : PhysicsWorld F) (dtime cur_time : F) :
    (update_pre sqrt p c W dtime cur_time).events.jumped
      = jumpConsumed p (groundSampled W p c) cur_time := rfl

theorem update_pre_last_jump_time (sqrt : F → F) (p : PlayerPhysics F) (c : JoltCharacter F)
    (W : PhysicsWorld F) (dtime cur_time : F) :
    (update_pre sqrt p c W dtime cur_time).state.last_jump_time
      = if jumpConsumed p (groundSampled W p c) cur_time = true then -1
        else p.last_jump_time := rfl

theorem update_pre_on_ground (sqrt : F → F) (p : PlayerPhysics F) (c : JoltCharacter F)
    (W : PhysicsWorld F) (dtime cur_time : F) :
    (update_pre sqrt p c W dtime cur_time).state.on_ground
      = if jumpConsumed p (groundSampled W p c) cur_time = true then false
        else ((groundSampled W p c).supported
          && decide ((groundSampled W p c).linear_velocity.z
            - (groundSampled W p c).ground_velocity.z < 1 / 10)) := rfl

theorem update_pre_campos_z_delta (sqrt : F → F) (p : PlayerPhysics F) (c : JoltCharacter F)
    (W : PhysicsWorld F) (dtime cur_time : F) :
    (update_pre sqrt p c W dtime cur_time).state.campos_z_delta
      = decayCamposZDelta p.campos_z_delta dtime := rfl

/-- With the latch at its sentinel `-1` and a clock not below `JUMP_PERIOD - 1`, no jump is
consumed. -/
theorem jumpConsumed_of_sentinel (p : PlayerPhysics F) (c : JoltCharacter F) (cur_time : F)
    (hlatch : p.last_jump_time = -1) (htime : JUMP_PERIOD - 1 ≤ cur_time) :
    jumpConsumed p c cur_time = false := by
  rw [jumpConsumed_eq_false_iff, hlatch]
  rintro ⟨h, -⟩
  linarith

/-- Counting the calls that returned `events.jumped = true`, one call at a time. -/
theorem count_jumped_cons (e : UpdateEvents) (evs : List UpdateEvents) :
    ((e :: evs).map UpdateEvents.jumped).count true
      = (evs.map UpdateEvents.jumped).count true + if e.jumped = true then 1 else 0 := by
  rw [List.map_cons, List.count_cons]
  simp

/-- A sequence of updates on a live controller, with every clock value at least
`JUMP_PERIOD - 1`,
returns, executes at most one jump, and executes none when the latch is empty. -/
theorem runUpdates_jump_count (sqrt : F → F) (calls : List (UpdateCall F)) :
    ∀ (p : PlayerPhysics F) (c : JoltCharacter F), p.jolt_character = some c →
      (∀ call ∈ calls, JUMP_PERIOD - 1 ≤ call.cur_time) →
      ∃ r, runUpdates sqrt p calls = some r ∧
        (r.2.map UpdateEvents.jumped).count true ≤ 1 ∧
        (p.last_jump_time = -1 → (r.2.map UpdateEvents.jumped).count true = 0) := by
  induction calls with
  | nil =>
    intro p c _ _
    exact ⟨(p, []), rfl, by simp, fun _ => by simp⟩
  | cons call rest ih =>
    intro p c hlive htime
    have hhead : JUMP_PERIOD - 1 ≤ call.cur_time := htime call (List.mem_cons_self _ _)
    have htail : ∀ call1 ∈ rest, JUMP_PERIOD - 1 ≤ call1.cur_time :=
      fun call1 h => htime call1 (List.mem_cons_of_mem _ h)
    have hupd := update_of_live sqrt p c call.physics_world call.physics_input call.dtime
      call.cur_time hlive
    obtain ⟨r, hr, hle, hzero⟩ := ih _ _
      (update_post_jolt_character
        (update_pre sqrt p c call.physics_world call.dtime call.cur_time)
        call.physics_world call.dtime) htail
    refine ⟨(r.1, (update_post (update_pre sqrt p c call.physics_world call.dtime
      call.cur_time) call.physics_world call.dtime).events :: r.2), ?_, ?_, ?_⟩
    · show (match p.update sqrt call.physics_world call.physics_input call.dtime
          call.cur_time with
        | none => none
        | some r1 =>
          match runUpdates sqrt r1.state rest with
          | none => none
          | some (p1, evs) => some (p1, r1.events :: evs)) = _
      rw [hupd]
      dsimp only
      rw [hr]
    · rw [count_jumped_cons, update_post_events, update_pre_jumped]
      by_cases hj : jumpConsumed p (groundSampled call.physics_world p c) call.cur_time = true
      · have hlatch : (update_post (update_pre sqrt p c call.physics_world call.dtime
            call.cur_time) call.physics_world call.dtime).state.last_jump_time = -1 := by
          rw [update_post_last_jump_time, update_pre_last_jump_time, if_pos hj]
        rw [hzero hlatch, if_pos hj]
      · rw [if_neg hj]
        exact hle
    · intro hlatch
      have hj : jumpConsumed p (groundSampled call.physics_world p c) call.cur_time = false :=
        jumpConsumed_of_sentinel p _ _ hlatch hhead
      have hlatch1 : (update_post (update_pre sqrt p c call.physics_world call.dtime
          call.cur_time) call.physics_world call.dtime).state.last_jump_time = -1 := by
        rw [update_post_last_jump_time, update_pre_last_jump_time, hj,
          if_neg Bool.false_ne_true, hlatch]
      rw [count_jumped_cons, update_post_events, update_pre_jumped, hj,
        if_neg Bool.false_ne_true, hzero hlatch1]

/-! ### C2: jump one-shot -/

/-- C2 (as amended): for every sequence of `update` calls whose clock values are all at least
`JUMP_PERIOD - 1 = -0.899999998509883...` (for one, a non-negative clock), on a live
controller, following one `processJump` call and containing no further one, every call
returns and at most one of them returns `events.jumped = true`. -/
theorem jump_one_shot (sqrt : F → F) (p : PlayerPhysics F) (c : JoltCharacter F)
    (cam : CameraController F) (t_r : F) (calls : List (UpdateCall F))
    (hlive : p.jolt_character = some c)
    (htime : ∀ call ∈ calls, JUMP_PERIOD - 1 ≤ call.cur_time) :
    ∃ r, runUpdates sqrt (p.processJump cam t_r) calls = some r ∧
      (r.2.map UpdateEvents.jumped).count true ≤ 1 := by
  obtain ⟨r, hr, hle, -⟩ := runUpdates_jump_count sqrt calls (p.processJump cam t_r) c hlive htime
  exact ⟨r, hr, hle⟩

/-- Witness of `jump_one_shot`: a jump requested at time 0 on flat ground, then updates at
times 0 and 1/20. -/
theorem jump_one_shot_witness :
    (liveWith flatChar).jolt_character = some flatChar ∧
    (∀ call ∈ [callAt 0, callAt (1 / 20)], JUMP_PERIOD - 1 ≤ call.cur_time) ∧
    ∃ r, runUpdates sqrtQ ((liveWith flatChar).processJump camX 0) [callAt 0, callAt (1 / 20)]
        = some r ∧ (r.2.map UpdateEvents.jumped).count true ≤ 1 :=
  have h : ∀ call ∈ [callAt 0, callAt (1 / 20)], (JUMP_PERIOD - 1 : ℚ) ≤ call.cur_time := by
    intro call hc
    simp only [List.mem_cons, List.mem_singleton, List.not_mem_nil, or_false] at hc
    rcases hc with rfl | rfl <;> norm_num [callAt, JUMP_PERIOD]
  ⟨rfl, h, jump_one_shot sqrtQ (liveWith flatChar) flatChar camX 0 _ rfl h⟩

/-- C2 (as stated, for any clock values) fails on a clock below `JUMP_PERIOD - 1`: one jump
request at time `-2` on a supported character, then updates at times `-2` and `-3/2` with no
further request: both updates return `events.jumped = true`, because after the first jump the
latch `-1` is less than `JUMP_PERIOD` before the time `-3/2`. -/
theorem jump_one_shot_counterexample :
    (runUpdates sqrtQ ((liveWith flatChar).processJump camX (-2))
      [callAt (-2), callAt (-3 / 2)]).map Prod.snd
      = some [{ jumped := true }, { jumped := true }] := by
  norm_num [runUpdates, PlayerPhysics.update, update_post, update_pre, liveWith, flatChar,
    PlayerPhysics.processJump, PlayerPhysics.construct, callAt, idWorld, jumpConsumed,
    groundSampled, JUMP_PERIOD, PlayerPhysics.notifyContacts, JoltCharacter.SetLinearVelocity]

/-- The bound `JUMP_PERIOD - 1` of `jumpConsumed_of_sentinel` is not `-9/10`: at the clock
value `-0.8999999999`, which is above `-9/10`, an empty latch `-1` on a supported character
is taken for a fresh request and a jump is executed. -/
theorem sentinel_mistaken_above_minus_nine_tenths :
    (-9 / 10 : ℚ) ≤ -8999999999 / 10000000000 ∧
    (liveWith flatChar).last_jump_time = -1 ∧
    ((liveWith flatChar).update sqrtQ idWorld {} (1 / 60) (-8999999999 / 10000000000)).map
      (fun r => r.events.jumped) = some true := by
  refine ⟨by norm_num, rfl, ?_⟩
  rw [update_of_live sqrtQ (liveWith flatChar) flatChar idWorld {} (1 / 60) _ rfl,
    Option.map_some', update_post_events, update_pre_jumped]
  norm_num [jumpConsumed, JUMP_PERIOD, groundSampled, liveWith, PlayerPhysics.construct,
    idWorld, flatChar]

/-! ### C3: jump grace window -/

/-- C4: on a not-flying tick that consumes a jump (request age below `JUMP_PERIOD`, character
supported), the velocity handed to `SetLinearVelocity` is `move_desired_vel` minus its
component along the ground normal `n`, plus the ground velocity, plus `(0, 0, 4.5)`; for a
unit normal the first part has no component along `n`.  And there is such a tick, with a
unit normal other than `(0, 0, 1)`, on which this velocity differs from the naive one, the
velocity before the jump block plus `(0, 0, 4.5)`. -/
theorem jump_uphill (sqrt : F → F) (p : PlayerPhysics F) (c : JoltCharacter F)
    (W : PhysicsWorld F) (dtime cur_time : F) :
    (p.fly_mode = false → cur_time - p.last_jump_time < JUMP_PERIOD →
      (W.UpdateGroundVelocity c).supported = true →
      (update_pre sqrt p c W dtime cur_time).character.linear_velocity
        = (p.move_desired_vel
            - (W.UpdateGroundVelocity c).ground_normal
              * dot p.move_desired_vel (W.UpdateGroundVelocity c).ground_normal)
          + (W.UpdateGroundVelocity c).ground_velocity + ⟨0, 0, 9 / 2⟩ ∧
      (dot (W.UpdateGroundVelocity c).ground_normal (W.UpdateGroundVelocity c).ground_normal = 1 →
        dot (p.move_desired_vel
            - (W.UpdateGroundVelocity c).ground_normal
              * dot p.move_desired_vel (W.UpdateGroundVelocity c).ground_normal)
          (W.UpdateGroundVelocity c).ground_normal = 0)) ∧
    (∃ (q : PlayerPhysics F) (d : JoltCharacter F) (V : PhysicsWorld F) (dt t : F),
      q.fly_mode = false ∧ t - q.last_jump_time < JUMP_PERIOD ∧
      (V.UpdateGroundVelocity d).supported = true ∧
      dot (V.UpdateGroundVelocity d).ground_normal (V.UpdateGroundVelocity d).ground_normal = 1 ∧
      (V.UpdateGroundVelocity d).ground_normal ≠ ⟨0, 0, 1⟩ ∧
      (update_pre sqrt q d V dt t).character.linear_velocity
        ≠ movementVel sqrt q (V.UpdateGroundVelocity d) d.linear_velocity dt + ⟨0, 0, 9 / 2⟩) := by
  constructor
  · intro hfly hj hsup
    have hyes : jumpConsumed p (W.UpdateGroundVelocity c) cur_time = true :=
      (jumpConsumed_eq_true_iff _ _ _).2 ⟨hj, hsup⟩
    constructor
    · rw [update_pre_velocity, groundSampled_not_flying W p c hfly, if_pos hyes,
        jumpVel_not_flying p _ _ hfly]
      rfl
    · intro hunit
      simp only [dot, Vec3.sub_def, Vec3.scale_def] at hunit ⊢
      linear_combination
        (-(p.move_desired_vel.x * (W.UpdateGroundVelocity c).ground_normal.x
          + p.move_desired_vel.y * (W.UpdateGroundVelocity c).ground_normal.y
          + p.move_desired_vel.z * (W.UpdateGroundVelocity c).ground_normal.z)) * hunit
  · let d : JoltCharacter F :=
      { position := ⟨0, 0, 0⟩, linear_velocity := ⟨0, 0, 0⟩, supported := true,
        ground_velocity := ⟨0, 0, 0⟩, ground_normal := ⟨3 / 5, 0, 4 / 5⟩,
        shape := ⟨19 / 20, 13 / 20, 3 / 10⟩ }
    let q : PlayerPhysics F :=
      { PlayerPhysics.construct ⟨0, 0, 0⟩ with
        move_desired_vel := ⟨3, 0, 0⟩, last_jump_time := 0, jolt_character := some d }
    let V : PhysicsWorld F :=
      { CharacterVirtual := fun _ _ => d, UpdateGroundVelocity := fun c1 => c1,
        ExtendedUpdate := fun _ c1 => (c1, []), Update := fun _ _ c1 => (c1, []) }
    have hj : (1 / 20 : F) - q.last_jump_time < JUMP_PERIOD := by
      show (1 / 20 : F) - 0 < JUMP_PERIOD
      unfold JUMP_PERIOD
      norm_num
    have hyes : jumpConsumed q (V.UpdateGroundVelocity d) (1 / 20) = true :=
      (jumpConsumed_eq_true_iff _ _ _).2 ⟨hj, rfl⟩
    refine ⟨q, d, V, 1 / 60, 1 / 20, rfl, hj, rfl, ?_, ?_, ?_⟩
    · show dot (⟨3 / 5, 0, 4 / 5⟩ : Vec3 F) ⟨3 / 5, 0, 4 / 5⟩ = 1
      norm_num [dot]
    · show (⟨3 / 5, 0, 4 / 5⟩ : Vec3 F) ≠ ⟨0, 0, 1⟩
      intro h
      have hx := congrArg Vec3.x h
      norm_num at hx
    · rw [update_pre_velocity, groundSampled_not_flying V q d rfl, if_pos hyes,
        jumpVel_not_flying q _ _ rfl, movementVel_not_flying sqrt q _ _ _ rfl]
      intro h
      have hx := congrArg Vec3.x h
      rw [Vec3.add_def, Vec3.add_def, Vec3.add_def] at hx
      dsimp only at hx
      rw [notFlyingVel_x, if_pos (groundedSnap_true rfl (by show (0 : F) - 0 < 1 / 10; norm_num))]
        at hx
      norm_num [removeComponentInDir, dot, parralel_vel, q, d, V, PlayerPhysics.construct] at hx

/-- Witness of `jump_uphill`: the controller on the slope, desired velocity `(3, 0, 0)`, jump
requested at time 0 and consumed at time 1/20: the velocity handed over is
`(48/25, 0, 153/50)`. -/
theorem jump_uphill_witness :
    slopePlayer.fly_mode = false ∧
    (1 / 20 : ℚ) - slopePlayer.last_jump_time < JUMP_PERIOD ∧
    (idWorld.UpdateGroundVelocity slopeChar).supported = true ∧
    (update_pre sqrtQ slopePlayer slopeChar idWorld (1 / 60) (1 / 20)).character.linear_velocity
      = ⟨48 / 25, 0, 153 / 50⟩ := by
  have hj : (1 / 20 : ℚ) - slopePlayer.last_jump_time < JUMP_PERIOD := by
    norm_num [slopePlayer, PlayerPhysics.processJump, JUMP_PERIOD]
  have h := ((jump_uphill sqrtQ slopePlayer slopeChar idWorld (1 / 60) (1 / 20)).1 rfl hj rfl).1
  refine ⟨rfl, hj, rfl, ?_⟩
  rw [h]
  norm_num [dot, slopePlayer, PlayerPhysics.processJump, PlayerPhysics.processMoveForwards,
    liveWith, PlayerPhysics.construct, camX, move_speed, doRunFactor, idWorld, slopeChar]

/-! ### C5: camera offset bound -/

theorem myClamp_bounds (x lo hi : F) (h : lo ≤ hi) :
    lo ≤ myClamp x lo hi ∧ myClamp x lo hi ≤ hi := by
  unfold myClamp
  exact ⟨le_max_left _ _, max_le h (min_le_left _ _)⟩

theorem myClamp_of_mem (x lo hi : F) (h1 : lo ≤ x) (h2 : x ≤ hi) : myClamp x lo hi = x := by
  unfold myClamp
  rw [min_eq_right h2, max_eq_right h1]

/-- C5: for every live controller (in particular a freshly constructed one after `init`,
whose offset is 0) and every non-empty sequence of `update` calls, with any frame times and
any collision world, every call returns and the camera offset `campos_z_delta` after the
last call lies in `[-0.3, 0.3]`. -/
theorem campos_z_delta_bounded (sqrt : F → F) (calls : List (UpdateCall F))
    (p : PlayerPhysics F) (c : JoltCharacter F)
    (hlive : p.jolt_character = some c) (hne : calls ≠ []) :
    ∃ r, runUpdates sqrt p calls = some r ∧
      -3 / 10 ≤ r.1.campos_z_delta ∧ r.1.campos_z_delta ≤ 3 / 10 := by
  induction calls generalizing p c with
  | nil => exact absurd rfl hne
  | cons call rest ih =>
    have hupd := update_of_live sqrt p c call.physics_world call.physics_input call.dtime
      call.cur_time hlive
    have hlive1 := update_post_jolt_character
      (update_pre sqrt p c call.physics_world call.dtime call.cur_time)
      call.physics_world call.dtime
    have hstep : runUpdates sqrt p (call :: rest) =
        match runUpdates sqrt (update_post (update_pre sqrt p c call.physics_world call.dtime
          call.cur_time) call.physics_world call.dtime).state rest with
        | none => none
        | some (p1, evs) => some (p1, (update_post (update_pre sqrt p c call.physics_world
            call.dtime call.cur_time) call.physics_world call.dtime).events :: evs) := by
      show (match p.update sqrt call.physics_world call.physics_input call.dtime
          call.cur_time with
        | none => none
        | some r1 =>
          match runUpdates sqrt r1.state rest with
          | none => none
          | some (p1, evs) => some (p1, r1.events :: evs)) = _
      rw [hupd]
    cases rest with
    | nil =>
      refine ⟨_, hstep, ?_⟩
      show -3 / 10 ≤ (update_post _ _ _).state.campos_z_delta
        ∧ (update_post _ _ _).state.campos_z_delta ≤ 3 / 10
      rw [update_post_campos_z_delta]
      exact myClamp_bounds _ _ _ (by norm_num)
    | cons call2 rest2 =>
      obtain ⟨r, hr, hb⟩ := ih _ _ hlive1 (List.cons_ne_nil _ _)
      rw [hr] at hstep
      exact ⟨_, hstep, hb⟩

/-- Witness of `campos_z_delta_bounded`: a freshly constructed controller, initialised at eye
position `(0, 0, 2)`, then two updates. -/
theorem campos_z_delta_bounded_witness :
    ((PlayerPhysics.construct (⟨0, 0, 0⟩ : Vec3 ℚ)).init idWorld ⟨0, 0, 2⟩).campos_z_delta = 0 ∧
    [callAt 0, callAt (1 / 60)] ≠ [] ∧
    ∃ r, runUpdates sqrtQ ((PlayerPhysics.construct (⟨0, 0, 0⟩ : Vec3 ℚ)).init idWorld ⟨0, 0, 2⟩)
        [callAt 0, callAt (1 / 60)] = some r ∧
      -3 / 10 ≤ r.1.campos_z_delta ∧ r.1.campos_z_delta ≤ 3 / 10 :=
  ⟨rfl, List.cons_ne_nil _ _,
    campos_z_delta_bounded sqrtQ [callAt 0, callAt (1 / 60)] _ _ rfl (List.cons_ne_nil _ _)⟩

/-! ### C6: camera offset decay -/

theorem decay_abs_le (o dtime : F) (hpos : 0 < dtime) (hle : dtime ≤ 1 / 10) :
    |decayCamposZDelta o dtime| ≤ |o| := by
  have hfac : |1 - 20 * dtime| ≤ 1 := by
    rw [abs_le]
    constructor <;> linarith
  have hd : |o - 20 * dtime * o| ≤ |o| := by
    have : o - 20 * dtime * o = (1 - 20 * dtime) * o := by ring
    rw [this, abs_mul]
    calc |1 - 20 * dtime| * |o| ≤ 1 * |o| := mul_le_mul_of_nonneg_right hfac (abs_nonneg o)
      _ = |o| := one_mul _
  unfold decayCamposZDelta
  dsimp only
  split_ifs
  · rw [abs_zero]
    exact abs_nonneg o
  · exact hd

theorem decay_abs_lt (o dtime : F) (hpos : 0 < dtime) (hlt : dtime < 1 / 10) (ho : o ≠ 0) :
    |decayCamposZDelta o dtime| < |o| := by
  have hopos : 0 < |o| := abs_pos.2 ho
  have hfac : |1 - 20 * dtime| < 1 := by
    rw [abs_lt]
    constructor <;> linarith
  have hd : |o - 20 * dtime * o| < |o| := by
    have : o - 20 * dtime * o = (1 - 20 * dtime) * o := by ring
    rw [this, abs_mul]
    calc |1 - 20 * dtime| * |o| < 1 * |o| := mul_lt_mul_of_pos_right hfac hopos
      _ = |o| := one_mul _
  unfold decayCamposZDelta
  dsimp only
  split_ifs
  · rw [abs_zero]
    exact hopos
  · exact hd

/-- C6 (as amended): for every frame time `0 < dtime ≤ 0.1` and every current offset in
`[-0.3, 0.3]`, an `update` tick (its stair delta is zero in every world) returns and leaves
`campos_z_delta = offset - 20*dtime*offset`, snapped to 0 when its magnitude is below `1e-5`;
its magnitude is no larger than before the tick, and strictly smaller when the offset was
nonzero and `dtime < 0.1`. -/
theorem campos_z_delta_decay (sqrt : F → F) (p : PlayerPhysics F) (c : JoltCharacter F)
    (W : PhysicsWorld F) (input : PlayerPhysicsInput) (dtime cur_time : F)
    (hlive : p.jolt_character = some c)
    (hpos : 0 < dtime) (hle : dtime ≤ 1 / 10)
    (hlo : -3 / 10 ≤ p.campos_z_delta) (hhi : p.campos_z_delta ≤ 3 / 10) :
    ∃ r, p.update sqrt W input dtime cur_time = some r ∧
      r.state.campos_z_delta =
        (if |p.campos_z_delta - 20 * dtime * p.campos_z_delta| < 1 / 100000 then 0
          else p.campos_z_delta - 20 * dtime * p.campos_z_delta) ∧
      |r.state.campos_z_delta| ≤ |p.campos_z_delta| ∧
      (dtime < 1 / 10 → p.campos_z_delta ≠ 0 →
        |r.state.campos_z_delta| < |p.campos_z_delta|) := by
  have habs : |p.campos_z_delta| ≤ 3 / 10 := abs_le.2 ⟨by linarith, hhi⟩
  have hdec := decay_abs_le p.campos_z_delta dtime hpos hle
  have hmem := abs_le.1 (le_trans hdec habs)
  have hval : (update_post (update_pre sqrt p c W dtime cur_time) W dtime).state.campos_z_delta
      = decayCamposZDelta p.campos_z_delta dtime := by
    rw [update_post_campos_z_delta, update_pre_campos_z_delta]
    exact myClamp_of_mem _ _ _ (by linarith [hmem.1]) hmem.2
  refine ⟨_, update_of_live sqrt p c W input dtime cur_time hlive, ?_, ?_, ?_⟩
  · rw [hval]
    rfl
  · rw [hval]
    exact hdec
  · intro hlt ho
    rw [hval]
    exact decay_abs_lt _ _ hpos hlt ho

/-- Witness of `campos_z_delta_decay`: offset 1/20 and a frame time of 1/60. -/
theorem campos_z_delta_decay_witness :
    offsetPlayer.jolt_character = some flatChar ∧
    (0 : ℚ) < 1 / 60 ∧ (1 / 60 : ℚ) < 1 / 10 ∧
    -3 / 10 ≤ offsetPlayer.campos_z_delta ∧ offsetPlayer.campos_z_delta ≤ 3 / 10 ∧
    offsetPlayer.campos_z_delta ≠ 0 ∧
    ∃ r, offsetPlayer.update sqrtQ idWorld {} (1 / 60) 0 = some r ∧
      |r.state.campos_z_delta| < |offsetPlayer.campos_z_delta| := by
  have hlo : (-3 / 10 : ℚ) ≤ offsetPlayer.campos_z_delta := by
    norm_num [offsetPlayer]
  have hhi : offsetPlayer.campos_z_delta ≤ 3 / 10 := by
    norm_num [offsetPlayer]
  have hne : offsetPlayer.campos_z_delta ≠ 0 := by
    norm_num [offsetPlayer]
  obtain ⟨r, hr, -, -, hlt⟩ := campos_z_delta_decay sqrtQ offsetPlayer flatChar idWorld {}
    (1 / 60) 0 rfl (by norm_num) (by norm_num) hlo hhi
  exact ⟨rfl, by norm_num, by norm_num, hlo, hhi, hne, r, hr, hlt (by norm_num) hne⟩

/-- C6 (as stated, for every `dtime > 0`) fails for a frame time above 0.1: with offset 1/20
and `dtime = 1/5` the tick leaves the offset `1/20 - 20*(1/5)*(1/20) = -3/20`, whose magnitude
3/20 is larger than 1/20. -/
theorem campos_z_delta_decay_counterexample :
    (0 : ℚ) < 1 / 5 ∧
    -3 / 10 ≤ offsetPlayer.campos_z_delta ∧ offsetPlayer.campos_z_delta ≤ 3 / 10 ∧
    |offsetPlayer.campos_z_delta| = 1 / 20 ∧
    (offsetPlayer.update sqrtQ idWorld {} (1 / 5) 0).map (fun r => |r.state.campos_z_delta|)
      = some (3 / 20) ∧
    ¬ ((3 / 20 : ℚ) ≤ 1 / 20) := by
  refine ⟨by norm_num, by norm_num [offsetPlayer], by norm_num [offsetPlayer],
    by norm_num [offsetPlayer, abs_of_pos], ?_, by norm_num⟩
  rw [update_of_live sqrtQ offsetPlayer flatChar idWorld {} (1 / 5) 0 rfl, Option.map_some',
    update_post_campos_z_delta, update_pre_campos_z_delta]
  have h1 : decayCamposZDelta offsetPlayer.campos_z_delta (1 / 5) = -3 / 20 := by
    unfold decayCamposZDelta
    have : offsetPlayer.campos_z_delta = 1 / 20 := rfl
    rw [this]
    norm_num [abs_of_neg]
  rw [h1, myClamp_of_mem _ _ _ (by norm_num) (by norm_num)]
  norm_num [abs_of_neg]

/-! ### C7: fall speed cap -/

/-- The not-flying branch ends with the cap of lines 258–259. -/
theorem notFlyingVel_z_ge (sqrt : F → F) (p : PlayerPhysics F) (c : JoltCharacter F)
    (vel : Vec3 F) (dtime : F) : -100 ≤ (notFlyingVel sqrt p c vel dtime).z := by
  unfold notFlyingVel
  dsimp only
  split_ifs with h1 h2 h3 h4 h5 h6 <;> first | exact le_refl _ | exact not_lt.1 ‹_›

/-- C7 (as amended): on a not-flying tick that consumes no jump, for every current velocity,
ground sample, input and `dtime`, the vertical component of the velocity handed to
`SetLinearVelocity` is at least `-100`; on a tick that consumes a jump it is the vertical
component of `move_desired_vel` minus its part along the ground normal, plus the ground
velocity z, plus 4.5. -/
theorem fall_speed_cap (sqrt : F → F) (p : PlayerPhysics F) (c : JoltCharacter F)
    (W : PhysicsWorld F) (dtime cur_time : F) (hfly : p.fly_mode = false) :
    (¬ (cur_time - p.last_jump_time < JUMP_PERIOD ∧ (W.UpdateGroundVelocity c).supported = true) →
      -100 ≤ (update_pre sqrt p c W dtime cur_time).character.linear_velocity.z) ∧
    ((cur_time - p.last_jump_time < JUMP_PERIOD ∧ (W.UpdateGroundVelocity c).supported = true) →
      (update_pre sqrt p c W dtime cur_time).character.linear_velocity.z
        = p.move_desired_vel.z
          - (W.UpdateGroundVelocity c).ground_normal.z
            * dot p.move_desired_vel (W.UpdateGroundVelocity c).ground_normal
          + (W.UpdateGroundVelocity c).ground_velocity.z + 9 / 2) := by
  rw [update_pre_velocity, groundSampled_not_flying W p c hfly,
    movementVel_not_flying sqrt p _ _ _ hfly, jumpVel_not_flying p _ _ hfly]
  constructor
  · intro hj
    have hno : jumpConsumed p (W.UpdateGroundVelocity c) cur_time = false :=
      (jumpConsumed_eq_false_iff _ _ _).2 hj
    rw [hno, if_neg Bool.false_ne_true]
    exact notFlyingVel_z_ge sqrt p _ _ dtime
  · intro hj
    have hyes : jumpConsumed p (W.UpdateGroundVelocity c) cur_time = true :=
      (jumpConsumed_eq_true_iff _ _ _).2 hj
    rw [if_pos hyes]
    simp [removeComponentInDir, jump_speed]

/-- Witness of `fall_speed_cap`: the controller in the air (no support, so no jump). -/
theorem fall_speed_cap_witness :
    airPlayer.fly_mode = false ∧
    ¬ ((0 : ℚ) - airPlayer.last_jump_time < JUMP_PERIOD
      ∧ (idWorld.UpdateGroundVelocity airChar).supported = true) ∧
    -100 ≤ (update_pre sqrtQ airPlayer airChar idWorld (1 / 60) 0).character.linear_velocity.z :=
  have hno : ¬ ((0 : ℚ) - airPlayer.last_jump_time < JUMP_PERIOD
      ∧ (idWorld.UpdateGroundVelocity airChar).supported = true) :=
    fun h => Bool.false_ne_true h.2
  ⟨rfl, hno, (fall_speed_cap sqrtQ airPlayer airChar idWorld (1 / 60) 0 rfl).1 hno⟩

/-- C7 (as stated, for every ground sample) fails on a tick that consumes a jump: a character
riding a platform that descends at 200 units/s, jump requested at time 0 and consumed at time
1/20: the velocity handed over has z component `-200 + 4.5 = -391/2`, below `-100`. -/
theorem fall_speed_cap_counterexample :
    ((liveWith descendingChar).processJump camX 0).fly_mode = false ∧
    (0 : ℚ) ≤ 1 / 60 ∧
    (update_pre sqrtQ ((liveWith descendingChar).processJump camX 0) descendingChar idWorld
      (1 / 60) (1 / 20)).character.linear_velocity.z = -391 / 2 ∧
    (-391 / 2 : ℚ) < -100 := by
  refine ⟨rfl, by norm_num, ?_, by norm_num⟩
  rw [update_pre_velocity, groundSampled_not_flying _ _ _ rfl,
    if_pos ((jumpConsumed_eq_true_iff _ _ _).2
      ⟨by norm_num [PlayerPhysics.processJump, JUMP_PERIOD], rfl⟩),
    jumpVel_not_flying _ _ _ rfl]
  norm_num [removeComponentInDir, dot, jump_speed, PlayerPhysics.processJump, liveWith,
    PlayerPhysics.construct, idWorld, descendingChar]

/-! ### C8: air-speed clamp -/

theorem parralel_vel_eq (p : PlayerPhysics F) :
    parralel_vel p = ⟨p.move_desired_vel.x, p.move_desired_vel.y, 0⟩ := rfl

theorem length2_scale (a : Vec3 F) (k : F) : (a * k).length2 = a.length2 * (k * k) := by
  simp only [Vec3.scale_def, Vec3.length2]
  ring

/-- The vector used in the air when the desired horizontal velocity is not longer than
`max_air_speed`. -/
theorem airAccel_of_le (sqrt : F → F) (pv : Vec3 F) (h : pv.length sqrt ≤ 8) :
    airAccel sqrt pv = pv := by
  unfold airAccel max_air_speed
  exact if_neg (not_lt.2 h)

/-- The vector used in the air when the desired horizontal velocity is longer than
`max_air_speed`. -/
theorem airAccel_of_gt (sqrt : F → F) (pv : Vec3 F) (h : 8 < pv.length sqrt) :
    airAccel sqrt pv = pv * (8 / pv.length sqrt) := by
  have hne : pv.length sqrt ≠ 0 := by
    intro h0
    rw [h0] at h
    norm_num at h
  unfold airAccel max_air_speed
  rw [if_pos h]
  unfold Vec3.setLength
  rw [if_neg hne]

theorem airAccel_length2_le (sqrt : F → F) (pv : Vec3 F)
    (hs0 : 0 ≤ sqrt pv.length2) (hs : sqrt pv.length2 * sqrt pv.length2 = pv.length2) :
    (airAccel sqrt pv).length2 ≤ 8 * 8
      ∧ (8 < pv.length sqrt → (airAccel sqrt pv).length2 = 8 * 8) := by
  have key : 8 < pv.length sqrt → (airAccel sqrt pv).length2 = 8 * 8 := by
    intro h
    rw [airAccel_of_gt sqrt pv h, length2_scale]
    unfold Vec3.length at h ⊢
    generalize sqrt pv.length2 = L at hs h
    have hpos : 0 < L := lt_trans (by norm_num) h
    rw [← hs]
    field_simp
  refine ⟨?_, key⟩
  rcases le_or_lt (pv.length sqrt) 8 with h | h
  · rw [airAccel_of_le sqrt pv h, ← hs]
    exact mul_le_mul h h hs0 (by norm_num)
  · exact le_of_eq (key h)

/-- C8: on a not-flying tick that takes the airborne branch (not supported, or relative
vertical speed at least 0.1), with `sqrt` exact on the squared length of the horizontal
desired velocity: the movement block integrates `velocity += a * dtime` horizontally with an
acceleration `a` that has no vertical component and squared magnitude at most `8 * 8`; `a` is
the horizontal projection of `move_desired_vel` when that has length at most 8, and otherwise
that projection scaled by the positive factor `8 / length`, of squared magnitude exactly
`8 * 8`. -/
theorem air_speed_clamp (sqrt : F → F) (p : PlayerPhysics F) (c : JoltCharacter F)
    (W : PhysicsWorld F) (dtime : F)
    (hfly : p.fly_mode = false)
    (hair : ¬ ((W.UpdateGroundVelocity c).supported = true
      ∧ c.linear_velocity.z - (W.UpdateGroundVelocity c).ground_velocity.z < 1 / 10))
    (hs0 : 0 ≤ sqrt (parralel_vel p).length2)
    (hs : sqrt (parralel_vel p).length2 * sqrt (parralel_vel p).length2
      = (parralel_vel p).length2) :
    (movementVel sqrt p (groundSampled W p c) c.linear_velocity dtime).x
      = c.linear_velocity.x + (airAccel sqrt (parralel_vel p)).x * dtime ∧
    (movementVel sqrt p (groundSampled W p c) c.linear_velocity dtime).y
      = c.linear_velocity.y + (airAccel sqrt (parralel_vel p)).y * dtime ∧
    (airAccel sqrt (parralel_vel p)).z = 0 ∧
    (airAccel sqrt (parralel_vel p)).length2 ≤ 8 * 8 ∧
    ((parralel_vel p).length sqrt ≤ 8 →
      airAccel sqrt (parralel_vel p) = ⟨p.move_desired_vel.x, p.move_desired_vel.y, 0⟩) ∧
    (8 < (parralel_vel p).length sqrt →
      (airAccel sqrt (parralel_vel p)).length2 = 8 * 8 ∧
      0 < 8 / (parralel_vel p).length sqrt ∧
      airAccel sqrt (parralel_vel p)
        = (⟨p.move_desired_vel.x, p.move_desired_vel.y, 0⟩ : Vec3 F)
          * (8 / (parralel_vel p).length sqrt)) := by
  have hsnap : ¬ groundedSnap (W.UpdateGroundVelocity c) c.linear_velocity = true := by
    intro h
    unfold groundedSnap at h
    rw [Bool.and_eq_true, decide_eq_true_iff] at h
    exact hair h
  have hb := airAccel_length2_le sqrt (parralel_vel p) hs0 hs
  refine ⟨?_, ?_, ?_, hb.1, ?_, ?_⟩
  · rw [groundSampled_not_flying W p c hfly, movementVel_not_flying sqrt p _ _ _ hfly,
      notFlyingVel_x, if_neg hsnap]
    rfl
  · rw [groundSampled_not_flying W p c hfly, movementVel_not_flying sqrt p _ _ _ hfly,
      notFlyingVel_y, if_neg hsnap]
    rfl
  · rcases le_or_lt ((parralel_vel p).length sqrt) 8 with h | h
    · rw [airAccel_of_le sqrt _ h]
      rfl
    · rw [airAccel_of_gt sqrt _ h]
      show (0 : F) * _ = 0
      exact zero_mul _
  · intro h
    rw [airAccel_of_le sqrt _ h]
    rfl
  · intro h
    refine ⟨hb.2 h, div_pos (by norm_num) (lt_trans (by norm_num) h), ?_⟩
    rw [airAccel_of_gt sqrt _ h]
    rfl

theorem airPlayer_length2 : (parralel_vel airPlayer).length2 = 225 := by
  norm_num [parralel_vel, Vec3.length2, airPlayer, PlayerPhysics.processMoveForwards, liveWith,
    PlayerPhysics.construct, cam35, move_speed, doRunFactor, run_factor]

theorem sqrtQ_225 : sqrtQ 225 = 15 := by
  have h : Nat.sqrt 225 = 15 := by norm_num
  have h1 : ((225 : ℚ).num).toNat = 225 := rfl
  have h2 : (225 : ℚ).den = 1 := rfl
  unfold sqrtQ
  rw [h1, h2, h]
  norm_num

/-- Witness of `air_speed_clamp`: the controller in the air with desired velocity
`(9, 12, 0)`, of length 15: the acceleration used has squared magnitude 64. -/
theorem air_speed_clamp_witness :
    airPlayer.fly_mode = false ∧
    ¬ ((idWorld.UpdateGroundVelocity airChar).supported = true
      ∧ airChar.linear_velocity.z - (idWorld.UpdateGroundVelocity airChar).ground_velocity.z
        < 1 / 10) ∧
    0 ≤ sqrtQ (parralel_vel airPlayer).length2 ∧
    sqrtQ (parralel_vel airPlayer).length2 * sqrtQ (parralel_vel airPlayer).length2
      = (parralel_vel airPlayer).length2 ∧
    8 < (parralel_vel airPlayer).length sqrtQ ∧
    (airAccel sqrtQ (parralel_vel airPlayer)).length2 = 8 * 8 := by
  have hair : ¬ ((idWorld.UpdateGroundVelocity airChar).supported = true
      ∧ airChar.linear_velocity.z - (idWorld.UpdateGroundVelocity airChar).ground_velocity.z
        < 1 / 10) := fun h => Bool.false_ne_true h.1
  have hs0 : 0 ≤ sqrtQ (parralel_vel airPlayer).length2 := by
    rw [airPlayer_length2, sqrtQ_225]
    norm_num
  have hs : sqrtQ (parralel_vel airPlayer).length2 * sqrtQ (parralel_vel airPlayer).length2
      = (parralel_vel airPlayer).length2 := by
    rw [airPlayer_length2, sqrtQ_225]
    norm_num
  have hgt : 8 < (parralel_vel airPlayer).length sqrtQ := by
    unfold Vec3.length
    rw [airPlayer_length2, sqrtQ_225]
    norm_num
  exact ⟨rfl, hair, hs0, hs, hgt,
    ((air_speed_clamp sqrtQ airPlayer airChar idWorld (1 / 60) rfl hair hs0 hs).2.2.2.2.2 hgt).1⟩

/-! ### C9: use without a live character handle -/

/-- C9 (the code departs from the claim): without a live character handle, both on a freshly
constructed controller and after `shutdown`, the operations `update`, `updateForInVehicle`
and `getLinearVel` dereference the null handle (the fault `none`) where the claim has a
guarded no-op with a neutral result. -/
theorem unguarded_without_character (sqrt : F → F) (p : PlayerPhysics F) (u : Vec3 F)
    (W : PhysicsWorld F) (input : PlayerPhysicsInput) (dtime cur_time : F)
    (vehicle_body_id : Nat) :
    (PlayerPhysics.construct u).update sqrt W input dtime cur_time = none ∧
    (PlayerPhysics.construct u).updateForInVehicle W input dtime vehicle_body_id = none ∧
    (PlayerPhysics.construct u).getLinearVel = none ∧
    p.shutdown.update sqrt W input dtime cur_time = none ∧
    p.shutdown.updateForInVehicle W input dtime vehicle_body_id = none ∧
    p.shutdown.getLinearVel = none :=
  ⟨rfl, rfl, rfl, rfl, rfl, rfl⟩

/-- The four operations that do check the handle: without a live character they leave the
controller unchanged and return the zero vector. -/
theorem guarded_without_character (p : PlayerPhysics F) (pos : Vec3 F) (v : Vec4f F)
    (h : p.jolt_character = none) :
    p.getCapsuleBottomPosition = ⟨0, 0, 0⟩ ∧
    p.setCapsuleBottomPosition pos v = p ∧
    p.setLinearVel v = p ∧
    p.addToLinearVel v = some p := by
  unfold PlayerPhysics.getCapsuleBottomPosition PlayerPhysics.setCapsuleBottomPosition
    PlayerPhysics.setLinearVel PlayerPhysics.addToLinearVel
  rw [h]
  exact ⟨rfl, rfl, rfl, rfl⟩

/-! ### C10: the stair delta fed to the camera smoother -/

/-- In every world the camera offset after `update` is the clamped decayed offset: the stair
delta `dz` of line 410 is the difference of two reads of the position after
`ExtendedUpdate`, hence zero. -/
theorem update_campos_z_delta (sqrt : F → F) (p : PlayerPhysics F) (c : JoltCharacter F)
    (W : PhysicsWorld F) (input : PlayerPhysicsInput) (dtime cur_time : F)
    (hlive : p.jolt_character = some c) :
    ∃ r, p.update sqrt W input dtime cur_time = some r ∧
      r.state.campos_z_delta
        = myClamp (decayCamposZDelta p.campos_z_delta dtime) (-3 / 10) (3 / 10) :=
  ⟨_, update_of_live sqrt p c W input dtime cur_time hlive, by
    rw [update_post_campos_z_delta, update_pre_campos_z_delta]⟩

/-- C10 (the code departs from the claim): in the world `stairWorld` the stair-walk pass of
`ExtendedUpdate` lifts the character by 1/5 above its position after the primitive sweep,
yet `update` leaves `campos_z_delta = 0`: no stair delta reaches the camera offset (the claim
has `0 + 1/5`), and the camera is at the character height plus the eye height, unsmoothed. -/
theorem stair_delta_not_fed_to_camera :
    (stairWorld.ExtendedUpdate (1 / 60)
        (update_pre sqrtQ walkingPlayer flatChar stairWorld (1 / 60) 0).character).1
      = stairPass (sweepPass (1 / 60)
        (update_pre sqrtQ walkingPlayer flatChar stairWorld (1 / 60) 0).character) ∧
    (stairPass (sweepPass (1 / 60)
        (update_pre sqrtQ walkingPlayer flatChar stairWorld (1 / 60) 0).character)).position.z
      - (sweepPass (1 / 60)
        (update_pre sqrtQ walkingPlayer flatChar stairWorld (1 / 60) 0).character).position.z
      = 1 / 5 ∧
    walkingPlayer.campos_z_delta = 0 ∧
    (walkingPlayer.update sqrtQ stairWorld {} (1 / 60) 0).map
      (fun r => (r.state.campos_z_delta, r.campos_out.z)) = some (0, 1 / 5 + 167 / 100) := by
  refine ⟨rfl, ?_, rfl, ?_⟩
  · norm_num [stairPass, sweepPass]
  · rw [update_of_live sqrtQ walkingPlayer flatChar stairWorld {} (1 / 60) 0 rfl,
      Option.map_some']
    have hc : (update_post (update_pre sqrtQ walkingPlayer flatChar stairWorld (1 / 60) 0)
        stairWorld (1 / 60)).state.campos_z_delta = 0 := by
      rw [update_post_campos_z_delta, update_pre_campos_z_delta]
      have h0 : walkingPlayer.campos_z_delta = 0 := rfl
      rw [h0]
      norm_num [decayCamposZDelta, myClamp]
    rw [hc]
    norm_num [update_post, update_pre, stairWorld, idWorld, stairPass, sweepPass, walkingPlayer,
      PlayerPhysics.processMoveForwards, liveWith, PlayerPhysics.construct, flatChar,
      decayCamposZDelta, myClamp, EYE_HEIGHT, JoltCharacter.SetLinearVelocity, groundSampled]

/-! ### C11: the reset of the accumulated input -/

theorem update_post_move_desired_vel (s : PreSweep F) (W : PhysicsWorld F) (dtime : F) :
    (update_post s W dtime).state.move_desired_vel = s.state.move_desired_vel := by
  obtain ⟨evs, h⟩ := update_post_state s W dtime
  rw [h]

theorem update_pre_move_desired_vel (sqrt : F → F) (p : PlayerPhysics F) (c : JoltCharacter F)
    (W : PhysicsWorld F) (dtime cur_time : F) :
    (update_pre sqrt p c W dtime cur_time).state.move_desired_vel = p.move_desired_vel := rfl

/-- C11 (as amended): `update` on a live controller returns and leaves `move_desired_vel` as
it was; the reset is the separate operation `zeroMoveDesiredVel`, after which
`move_desired_vel` is `(0, 0, 0)`: so the contributions accumulated before one `update` do
not reach the next one once `zeroMoveDesiredVel` has been called after it. -/
theorem move_desired_vel_reset (sqrt : F → F) (p : PlayerPhysics F) (c : JoltCharacter F)
    (W : PhysicsWorld F) (input : PlayerPhysicsInput) (dtime cur_time : F)
    (hlive : p.jolt_character = some c) :
    ∃ r, p.update sqrt W input dtime cur_time = some r ∧
      r.state.move_desired_vel = p.move_desired_vel ∧
      r.state.zeroMoveDesiredVel.move_desired_vel = ⟨0, 0, 0⟩ ∧
      r.state.zeroMoveDesiredVel.jolt_character = r.state.jolt_character :=
  ⟨_, update_of_live sqrt p c W input dtime cur_time hlive, by
    rw [update_post_move_desired_vel, update_pre_move_desired_vel], rfl, rfl⟩

/-- Witness of `move_desired_vel_reset`: the controller walking forwards on flat ground. -/
theorem move_desired_vel_reset_witness :
    walkingPlayer.jolt_character = some flatChar ∧
    ∃ r, walkingPlayer.update sqrtQ idWorld {} (1 / 60) 0 = some r ∧
      r.state.move_desired_vel = walkingPlayer.move_desired_vel ∧
      r.state.zeroMoveDesiredVel.move_desired_vel = ⟨0, 0, 0⟩ := by
  obtain ⟨r, hr, h1, h2, -⟩ := move_desired_vel_reset sqrtQ walkingPlayer flatChar idWorld {}
    (1 / 60) 0 rfl
  exact ⟨rfl, r, hr, h1, h2⟩

/-- C11 (as stated) fails: after `update` on the controller walking forwards,
`move_desired_vel` is still `(3, 0, 0)`, not `(0, 0, 0)`. -/
theorem move_desired_vel_reset_counterexample :
    (walkingPlayer.update sqrtQ idWorld {} (1 / 60) 0).map (fun r => r.state.move_desired_vel)
      = some ⟨3, 0, 0⟩ ∧
    (⟨3, 0, 0⟩ : Vec3 ℚ) ≠ ⟨0, 0, 0⟩ := by
  constructor
  · rw [update_of_live sqrtQ walkingPlayer flatChar idWorld {} (1 / 60) 0 rfl, Option.map_some',
      update_post_move_desired_vel, update_pre_move_desired_vel]
    norm_num [walkingPlayer, PlayerPhysics.processMoveForwards, liveWith,
      PlayerPhysics.construct, camX, move_speed, doRunFactor]
  · intro h
    have hx := congrArg Vec3.x h
    norm_num at hx

/-! ### The vertical velocity of the not-flying branch (used by C12 and C17) -/

/-- The vector used in the air has no vertical component. -/
theorem airAccel_parralel_z (sqrt : F → F) (p : PlayerPhysics F) :
    (airAccel sqrt (parralel_vel p)).z = 0 := by
  unfold airAccel Vec3.setLength
  split_ifs
  · rfl
  · show (0 : F) * _ = 0
    exact zero_mul _
  · rfl

theorem cap_eq_max (z : F) : (if z < -100 then (-100 : F) else z) = max (-100) z := by
  split_ifs with h
  · exact (max_eq_left (le_of_lt h)).symm
  · exact (max_eq_right (not_lt.1 h)).symm

/-- The vertical velocity after lines 233–259: the vertical velocity after the horizontal
step, minus `9.81 * dtime` when gravity is enabled, floored at `-100`. -/
theorem notFlyingVel_z (sqrt : F → F) (p : PlayerPhysics F) (c : JoltCharacter F)
    (vel : Vec3 F) (dtime : F) :
    (notFlyingVel sqrt p c vel dtime).z =
      max (-100)
        ((if groundedSnap c vel = true then c.ground_velocity.z else vel.z)
          - (if p.gravity_enabled = true then 981 / 100 * dtime else 0)) := by
  have hair := airAccel_parralel_z sqrt p
  have hz : ∀ v : Vec3 F, (if v.z < -100 then ({ v with z := -100 } : Vec3 F) else v).z
      = max (-100) v.z := by
    intro v
    rw [← cap_eq_max]
    split_ifs <;> rfl
  unfold notFlyingVel
  dsimp only
  rw [hz]
  congr 1
  by_cases hs : groundedSnap c vel = true <;> by_cases hg : p.gravity_enabled = true
  · rw [if_pos hs, if_pos hg, if_pos hs, if_pos hg]
    simp only [Vec3.add_def, Vec3.scale_def, parralel_vel]
    ring
  · rw [if_pos hs, if_neg hg, if_pos hs, if_neg hg]
    simp only [Vec3.add_def, parralel_vel]
    ring
  · rw [if_neg hs, if_pos hg, if_neg hs, if_pos hg]
    simp only [Vec3.add_def, Vec3.scale_def]
    rw [hair]
    ring
  · rw [if_neg hs, if_neg hg, if_neg hs, if_neg hg]
    simp only [Vec3.add_def, Vec3.scale_def]
    rw [hair]
    ring

theorem Vec3.eq_of_components {G : Type} (a b : Vec3 G) (hx : a.x = b.x) (hy : a.y = b.y)
    (hz : a.z = b.z) : a = b := by
  cases a
  cases b
  simp only [Vec3.mk.injEq]
  exact ⟨hx, hy, hz⟩

/-! ### C12: the flat-ground scenario -/

/-- C12 (as amended): for every `dtime > 0`, not flying, with gravity enabled, a character
supported on stationary ground, at rest, with no jump request younger than `JUMP_PERIOD`
and a desired velocity `d = move_desired_vel` (horizontal or not): the velocity handed to
`SetLinearVelocity` is `(d.x, d.y, max(-100, -9.81*dtime))`: horizontally `d`, vertically
the gravity of one frame, which is negative; and `update` returns with `on_ground = true`
and no jump. -/
theorem flat_ground_scenario (sqrt : F → F) (p : PlayerPhysics F) (c : JoltCharacter F)
    (W : PhysicsWorld F) (input : PlayerPhysicsInput) (dtime cur_time : F)
    (hlive : p.jolt_character = some c)
    (hfly : p.fly_mode = false) (hgrav : p.gravity_enabled = true)
    (hsup : (W.UpdateGroundVelocity c).supported = true)
    (hgv : (W.UpdateGroundVelocity c).ground_velocity = ⟨0, 0, 0⟩)
    (hrest : c.linear_velocity = ⟨0, 0, 0⟩)
    (hkeep : (W.UpdateGroundVelocity c).linear_velocity = ⟨0, 0, 0⟩)
    (hnojump : ¬ cur_time - p.last_jump_time < JUMP_PERIOD) (hdt : 0 < dtime) :
    (update_pre sqrt p c W dtime cur_time).character.linear_velocity
      = ⟨p.move_desired_vel.x, p.move_desired_vel.y, max (-100) (-(981 / 100 * dtime))⟩ ∧
    (update_pre sqrt p c W dtime cur_time).character.linear_velocity.z < 0 ∧
    ∃ r, p.update sqrt W input dtime cur_time = some r ∧
      r.state.on_ground = true ∧ r.events.jumped = false := by
  have hno : jumpConsumed p (W.UpdateGroundVelocity c) cur_time = false :=
    (jumpConsumed_eq_false_iff _ _ _).2 (fun h => hnojump h.1)
  have hrel : c.linear_velocity.z - (W.UpdateGroundVelocity c).ground_velocity.z < 1 / 10 := by
    rw [hrest, hgv]
    norm_num
  have hsnap := groundedSnap_true hsup hrel
  have hvel : (update_pre sqrt p c W dtime cur_time).character.linear_velocity
      = ⟨p.move_desired_vel.x, p.move_desired_vel.y, max (-100) (-(981 / 100 * dtime))⟩ := by
    rw [update_pre_velocity, groundSampled_not_flying W p c hfly, hno,
      if_neg Bool.false_ne_true, movementVel_not_flying sqrt p _ _ _ hfly]
    apply Vec3.eq_of_components
    · rw [notFlyingVel_x, if_pos hsnap, hgv]
      simp [parralel_vel]
    · rw [notFlyingVel_y, if_pos hsnap, hgv]
      simp [parralel_vel]
    · rw [notFlyingVel_z, if_pos hsnap, if_pos hgrav, hgv]
      simp
  refine ⟨hvel, ?_, _, update_of_live sqrt p c W input dtime cur_time hlive, ?_, ?_⟩
  · rw [hvel]
    show max (-100 : F) (-(981 / 100 * dtime)) < 0
    exact max_lt (by norm_num) (by linarith)
  · rw [update_post_on_ground, update_pre_on_ground, groundSampled_not_flying W p c hfly, hno,
      if_neg Bool.false_ne_true, hsup, hkeep, hgv]
    simp
  · rw [update_post_events, update_pre_jumped, groundSampled_not_flying W p c hfly, hno]

/-- Witness of `flat_ground_scenario` (the scenario of the specification): `dtime = 1/60`,
desired velocity `(1, 0, 0)` on flat stationary ground. -/
theorem flat_ground_scenario_witness :
    strollPlayer.jolt_character = some flatChar ∧
    strollPlayer.fly_mode = false ∧ strollPlayer.gravity_enabled = true ∧
    (idWorld.UpdateGroundVelocity flatChar).supported = true ∧
    (idWorld.UpdateGroundVelocity flatChar).ground_velocity = ⟨0, 0, 0⟩ ∧
    flatChar.linear_velocity = ⟨0, 0, 0⟩ ∧
    ¬ (1 : ℚ) - strollPlayer.last_jump_time < JUMP_PERIOD ∧
    strollPlayer.move_desired_vel.z = 0 ∧
    (update_pre sqrtQ strollPlayer flatChar idWorld (1 / 60) 1).character.linear_velocity
      = ⟨strollPlayer.move_desired_vel.x, strollPlayer.move_desired_vel.y,
        max (-100) (-(981 / 100 * (1 / 60)))⟩ ∧
    ∃ r, strollPlayer.update sqrtQ idWorld {} (1 / 60) 1 = some r ∧
      r.state.on_ground = true ∧ r.events.jumped = false := by
  have hnojump : ¬ (1 : ℚ) - strollPlayer.last_jump_time < JUMP_PERIOD := by
    norm_num [strollPlayer, PlayerPhysics.processMoveForwards, liveWith, PlayerPhysics.construct,
      JUMP_PERIOD]
  have hdz : strollPlayer.move_desired_vel.z = 0 := by
    norm_num [strollPlayer, PlayerPhysics.processMoveForwards, liveWith,
      PlayerPhysics.construct, camX]
  obtain ⟨h1, -, h3⟩ := flat_ground_scenario sqrtQ strollPlayer flatChar idWorld {} (1 / 60) 1
    rfl rfl rfl rfl rfl rfl rfl hnojump (by norm_num)
  exact ⟨rfl, rfl, rfl, rfl, rfl, rfl, hnojump, hdz, h1, h3⟩

/-- C12 (as stated) fails in the vertical component: in the scenario `dtime = 1/60`,
`d = (1, 0, 0)`, flat stationary ground, at rest, no pending jump, the velocity handed over
is `(1, 0, -327/2000)` (gravity of one frame, `-9.81/60`), not `(1, 0, 0)`. -/
theorem flat_ground_scenario_counterexample :
    strollPlayer.move_desired_vel = ⟨1, 0, 0⟩ ∧
    strollPlayer.fly_mode = false ∧ strollPlayer.gravity_enabled = true ∧
    (idWorld.UpdateGroundVelocity flatChar).supported = true ∧
    (idWorld.UpdateGroundVelocity flatChar).ground_velocity = ⟨0, 0, 0⟩ ∧
    flatChar.linear_velocity = ⟨0, 0, 0⟩ ∧
    strollPlayer.last_jump_time = -1 ∧
    (update_pre sqrtQ strollPlayer flatChar idWorld (1 / 60) 1).character.linear_velocity
      = ⟨1, 0, -327 / 2000⟩ ∧
    (⟨1, 0, -327 / 2000⟩ : Vec3 ℚ) ≠ ⟨1, 0, 0⟩ := by
  have hm : strollPlayer.move_desired_vel = ⟨1, 0, 0⟩ := by
    norm_num [strollPlayer, PlayerPhysics.processMoveForwards, liveWith,
      PlayerPhysics.construct, camX, move_speed, doRunFactor]
  have hno : jumpConsumed strollPlayer (idWorld.UpdateGroundVelocity flatChar) 1 = false := by
    rw [jumpConsumed_eq_false_iff]
    rintro ⟨h, -⟩
    have hl : strollPlayer.last_jump_time = -1 := rfl
    rw [hl] at h
    norm_num [JUMP_PERIOD] at h
  have hsnap : groundedSnap (idWorld.UpdateGroundVelocity flatChar) flatChar.linear_velocity
      = true := groundedSnap_true rfl (by norm_num [flatChar, idWorld])
  refine ⟨hm, rfl, rfl, rfl, rfl, rfl, rfl, ?_, ?_⟩
  · rw [update_pre_velocity, groundSampled_not_flying idWorld strollPlayer flatChar rfl, hno,
      if_neg Bool.false_ne_true, movementVel_not_flying sqrtQ strollPlayer _ _ _ rfl]
    apply Vec3.eq_of_components
    · rw [notFlyingVel_x, if_pos hsnap]
      simp only [Vec3.add_def, parralel_vel, hm]
      norm_num [idWorld, flatChar]
    · rw [notFlyingVel_y, if_pos hsnap]
      simp only [Vec3.add_def, parralel_vel, hm]
      norm_num [idWorld, flatChar]
    · rw [notFlyingVel_z, if_pos hsnap,
        if_pos (show strollPlayer.gravity_enabled = true from rfl)]
      norm_num [idWorld, flatChar]
  · intro h
    have hz := congrArg Vec3.z h
    norm_num at hz

/-! ### C13: the on-ground classification -/

/-- C13 (as amended): on a live controller, when no jump is consumed, the `on_ground` flag
left by `update` is (character supported) and (character vertical velocity minus ground
vertical velocity below 0.1), both read on lines 277–278 from the character as it stands
before `ExtendedUpdate` (after `UpdateGroundVelocity()` when not flying): the state at the
start of the tick, not the state after the sweep, stick-to-floor and stair passes. -/
theorem on_ground_classification (sqrt : F → F) (p : PlayerPhysics F) (c : JoltCharacter F)
    (W : PhysicsWorld F) (input : PlayerPhysicsInput) (dtime cur_time : F)
    (hlive : p.jolt_character = some c)
    (hnojump : ¬ (cur_time - p.last_jump_time < JUMP_PERIOD
      ∧ (groundSampled W p c).supported = true)) :
    ∃ r, p.update sqrt W input dtime cur_time = some r ∧
      r.events.jumped = false ∧
      (r.state.on_ground = true ↔
        ((groundSampled W p c).supported = true ∧
          (groundSampled W p c).linear_velocity.z - (groundSampled W p c).ground_velocity.z
            < 1 / 10)) := by
  have hno : jumpConsumed p (groundSampled W p c) cur_time = false :=
    (jumpConsumed_eq_false_iff _ _ _).2 hnojump
  refine ⟨_, update_of_live sqrt p c W input dtime cur_time hlive, ?_, ?_⟩
  · rw [update_post_events, update_pre_jumped, hno]
  · rw [update_post_on_ground, update_pre_on_ground, hno, if_neg Bool.false_ne_true,
      Bool.and_eq_true, decide_eq_true_iff]

/-- Witness of `on_ground_classification`: the character at rest on flat ground, no pending
jump, in a world whose `ExtendedUpdate` carries it off a ledge: `on_ground` is true. -/
theorem on_ground_classification_witness :
    (liveWith flatChar).jolt_character = some flatChar ∧
    ¬ ((1 : ℚ) - (liveWith flatChar).last_jump_time < JUMP_PERIOD
      ∧ (groundSampled ledgeWorld (liveWith flatChar) flatChar).supported = true) ∧
    ∃ r, (liveWith flatChar).update sqrtQ ledgeWorld {} (1 / 60) 1 = some r ∧
      r.events.jumped = false ∧ r.state.on_ground = true := by
  have hnojump : ¬ ((1 : ℚ) - (liveWith flatChar).last_jump_time < JUMP_PERIOD
      ∧ (groundSampled ledgeWorld (liveWith flatChar) flatChar).supported = true) := by
    rintro ⟨h, -⟩
    norm_num [liveWith, PlayerPhysics.construct, JUMP_PERIOD] at h
  obtain ⟨r, hr, hj, hiff⟩ := on_ground_classification sqrtQ (liveWith flatChar) flatChar
    ledgeWorld {} (1 / 60) 1 rfl hnojump
  refine ⟨rfl, hnojump, r, hr, hj, hiff.2 ⟨rfl, ?_⟩⟩
  norm_num [groundSampled, liveWith, PlayerPhysics.construct, ledgeWorld, idWorld, flatChar]

/-- C13 (as stated) fails: the character at rest on flat ground, no jump consumed, in a world
whose `ExtendedUpdate` carries it off a ledge: after the passes of this tick the character
is not supported, yet `update` leaves `on_ground = true`. -/
theorem on_ground_classification_counterexample :
    ((liveWith flatChar).update sqrtQ ledgeWorld {} (1 / 60) 1).map
      (fun r => (r.events.jumped, r.state.on_ground,
        r.state.jolt_character.map JoltCharacter.supported))
      = some (false, true, some false) := by
  rw [update_of_live sqrtQ (liveWith flatChar) flatChar ledgeWorld {} (1 / 60) 1 rfl,
    Option.map_some', update_post_events, update_post_on_ground, update_post_jolt_character,
    update_pre_jumped, update_pre_on_ground]
  norm_num [jumpConsumed, JUMP_PERIOD, groundSampled, liveWith, PlayerPhysics.construct,
    ledgeWorld, idWorld, flatChar]

/-! ### C14: the final camera position -/

theorem update_post_campos_out (s : PreSweep F) (W : PhysicsWorld F) (dtime : F) :
    (update_post s W dtime).campos_out =
      ⟨(W.ExtendedUpdate dtime s.character).1.position.x,
        (W.ExtendedUpdate dtime s.character).1.position.y,
        (W.ExtendedUpdate dtime s.character).1.position.z + 167 / 100
          - myClamp s.state.campos_z_delta (-3 / 10) (3 / 10), 1⟩ := by
  unfold update_post EYE_HEIGHT
  dsimp only
  rw [sub_self, add_zero]

/-- C14: on a live controller `update` returns; with `(px, py, pz)` the position of the
character after the tick and `campos_z_delta` the offset the tick leaves (decayed, the delta
added, clamped), the camera position written is
`(px, py, pz + 1.67 - campos_z_delta, 1)`, and its height differs from `pz + 1.67` by at
most 0.3. -/
theorem final_camera_position (sqrt : F → F) (p : PlayerPhysics F) (c : JoltCharacter F)
    (W : PhysicsWorld F) (input : PlayerPhysicsInput) (dtime cur_time : F)
    (hlive : p.jolt_character = some c) :
    ∃ r c3, p.update sqrt W input dtime cur_time = some r ∧
      r.state.jolt_character = some c3 ∧
      r.state.campos_z_delta
        = myClamp (decayCamposZDelta p.campos_z_delta dtime) (-3 / 10) (3 / 10) ∧
      r.campos_out
        = ⟨c3.position.x, c3.position.y, c3.position.z + 167 / 100 - r.state.campos_z_delta,
          1⟩ ∧
      |r.campos_out.z - (c3.position.z + 167 / 100)| ≤ 3 / 10 := by
  have hb := myClamp_bounds (decayCamposZDelta p.campos_z_delta dtime) (-3 / 10) (3 / 10)
    (by norm_num)
  refine ⟨_, _, update_of_live sqrt p c W input dtime cur_time hlive,
    update_post_jolt_character _ W dtime, ?_, ?_, ?_⟩
  · rw [update_post_campos_z_delta, update_pre_campos_z_delta]
  · rw [update_post_campos_out, update_post_campos_z_delta]
  · rw [update_post_campos_out, update_pre_campos_z_delta]
    dsimp only
    rw [abs_le]
    constructor <;> linarith [hb.1, hb.2]

/-- Witness of `final_camera_position`: the controller walking forwards in the world with
the stair. -/
theorem final_camera_position_witness :
    walkingPlayer.jolt_character = some flatChar ∧
    ∃ r c3, walkingPlayer.update sqrtQ stairWorld {} (1 / 60) 0 = some r ∧
      r.state.jolt_character = some c3 ∧
      r.campos_out
        = ⟨c3.position.x, c3.position.y, c3.position.z + 167 / 100 - r.state.campos_z_delta,
          1⟩ ∧
      |r.campos_out.z - (c3.position.z + 167 / 100)| ≤ 3 / 10 := by
  obtain ⟨r, c3, hr, hc, -, hout, hb⟩ := final_camera_position sqrtQ walkingPlayer flatChar
    stairWorld {} (1 / 60) 0 rfl
  exact ⟨rfl, r, c3, hr, hc, hout, hb⟩

/-! ### C15: contact recording -/

/-- C15: for every contact notification, if the body lock succeeds and the owner tag
`user_data` is non-zero, `OnContactAdded` appends exactly one event referencing that owner
at the end of `contacted_events`, keeping all earlier entries (whether or not the owner is
already queued) and changing no other field; if the lock fails or the tag is zero the
controller is unchanged. -/
theorem contact_recording {G : Type} (p : PlayerPhysics G) (lock : BodyLock) :
    (∀ user_data, lock = some user_data → user_data ≠ 0 →
      p.OnContactAdded lock
        = { p with contacted_events := p.contacted_events ++ [ContactedEvent.mk user_data] }) ∧
    ((lock = none ∨ lock = some 0) → p.OnContactAdded lock = p) := by
  constructor
  · intro user_data hlock hne
    rw [hlock]
    exact if_pos hne
  · rintro (h | h)
    · rw [h]
      rfl
    · rw [h]
      rfl

/-- Witness of `contact_recording`: a second contact with the owner 7, already queued, is
appended again. -/
theorem contact_recording_witness :
    (some 7 : BodyLock) = some 7 ∧ (7 : Nat) ≠ 0 ∧
    contactPlayer.contacted_events = [ContactedEvent.mk 7] ∧
    (contactPlayer.OnContactAdded (some 7)).contacted_events
      = [ContactedEvent.mk 7, ContactedEvent.mk 7] ∧
    contactPlayer.OnContactAdded (some 0) = contactPlayer ∧
    contactPlayer.OnContactAdded none = contactPlayer := by
  have h := contact_recording contactPlayer (some 7)
  have h0 := (contact_recording contactPlayer (some 0)).2 (Or.inr rfl)
  have hn := (contact_recording contactPlayer none).2 (Or.inl rfl)
  refine ⟨rfl, by decide, rfl, ?_, h0, hn⟩
  rw [h.1 7 rfl (by decide)]
  rfl

/-! ### C16: idempotent shutdown -/

/-- C16: for every controller state, `shutdown` called twice gives exactly the state that one
call gives: the character handle and both shapes absent and every other field as before the
first call; `shutdown` is total, so neither call raises an error. -/
theorem shutdown_idempotent {G : Type} (p : PlayerPhysics G) :
    p.shutdown.shutdown = p.shutdown ∧
    p.shutdown =
      { p with jolt_character := none, standing_shape := none, sitting_shape := none } ∧
    p.shutdown.jolt_character = none ∧
    p.shutdown.standing_shape = none ∧
    p.shutdown.sitting_shape = none :=
  ⟨rfl, rfl, rfl, rfl, rfl⟩

/-! ### C17: gravity while grounded -/

theorem groundedSnap_eq_true_iff (c : JoltCharacter F) (vel : Vec3 F) :
    groundedSnap c vel = true ↔
      (c.supported = true ∧ vel.z - c.ground_velocity.z < 1 / 10) := by
  unfold groundedSnap
  rw [Bool.and_eq_true, decide_eq_true_iff]

/-- C17: on a not-flying tick that consumes no jump, the vertical velocity handed to
`SetLinearVelocity` is `max(-100, v - 9.81*dtime)` when `gravity_enabled` is true and
`max(-100, v)` when it is false, where `v` is the ground velocity z in the grounded-snap
branch (supported, relative vertical speed below 0.1) and the previous velocity z in the
airborne branch. -/
theorem gravity_while_grounded (sqrt : F → F) (p : PlayerPhysics F) (c : JoltCharacter F)
    (W : PhysicsWorld F) (dtime cur_time : F)
    (hfly : p.fly_mode = false)
    (hnojump : ¬ (cur_time - p.last_jump_time < JUMP_PERIOD
      ∧ (W.UpdateGroundVelocity c).supported = true)) :
    (((W.UpdateGroundVelocity c).supported = true
        ∧ c.linear_velocity.z - (W.UpdateGroundVelocity c).ground_velocity.z < 1 / 10) →
      (p.gravity_enabled = true →
        (update_pre sqrt p c W dtime cur_time).character.linear_velocity.z
          = max (-100) ((W.UpdateGroundVelocity c).ground_velocity.z - 981 / 100 * dtime)) ∧
      (p.gravity_enabled = false →
        (update_pre sqrt p c W dtime cur_time).character.linear_velocity.z
          = max (-100) (W.UpdateGroundVelocity c).ground_velocity.z)) ∧
    (¬ ((W.UpdateGroundVelocity c).supported = true
        ∧ c.linear_velocity.z - (W.UpdateGroundVelocity c).ground_velocity.z < 1 / 10) →
      (p.gravity_enabled = true →
        (update_pre sqrt p c W dtime cur_time).character.linear_velocity.z
          = max (-100) (c.linear_velocity.z - 981 / 100 * dtime)) ∧
      (p.gravity_enabled = false →
        (update_pre sqrt p c W dtime cur_time).character.linear_velocity.z
          = max (-100) c.linear_velocity.z)) := by
  have hno : jumpConsumed p (W.UpdateGroundVelocity c) cur_time = false :=
    (jumpConsumed_eq_false_iff _ _ _).2 hnojump
  rw [update_pre_velocity, groundSampled_not_flying W p c hfly, hno,
    if_neg Bool.false_ne_true, movementVel_not_flying sqrt p _ _ _ hfly, notFlyingVel_z]
  constructor
  · intro hs
    rw [if_pos ((groundedSnap_eq_true_iff _ _).2 hs)]
    constructor
    · intro hg
      rw [if_pos hg]
    · intro hg
      rw [if_neg (by rw [hg]; exact Bool.false_ne_true), sub_zero]
  · intro hs
    rw [if_neg (fun h => hs ((groundedSnap_eq_true_iff _ _).1 h))]
    constructor
    · intro hg
      rw [if_pos hg]
    · intro hg
      rw [if_neg (by rw [hg]; exact Bool.false_ne_true), sub_zero]

/-- Witness of `gravity_while_grounded`: the controller strolling on flat stationary ground,
gravity enabled: the vertical velocity handed over is `max(-100, 0 - 9.81/60)`. -/
theorem gravity_while_grounded_witness :
    strollPlayer.fly_mode = false ∧
    ¬ ((1 : ℚ) - strollPlayer.last_jump_time < JUMP_PERIOD
      ∧ (idWorld.UpdateGroundVelocity flatChar).supported = true) ∧
    ((idWorld.UpdateGroundVelocity flatChar).supported = true
      ∧ flatChar.linear_velocity.z - (idWorld.UpdateGroundVelocity flatChar).ground_velocity.z
        < 1 / 10) ∧
    strollPlayer.gravity_enabled = true ∧
    (update_pre sqrtQ strollPlayer flatChar idWorld (1 / 60) 1).character.linear_velocity.z
      = max (-100) ((idWorld.UpdateGroundVelocity flatChar).ground_velocity.z
        - 981 / 100 * (1 / 60)) := by
  have hnojump : ¬ ((1 : ℚ) - strollPlayer.last_jump_time < JUMP_PERIOD
      ∧ (idWorld.UpdateGroundVelocity flatChar).supported = true) := by
    rintro ⟨h, -⟩
    norm_num [strollPlayer, PlayerPhysics.processMoveForwards, liveWith,
      PlayerPhysics.construct, JUMP_PERIOD] at h
  have hs : (idWorld.UpdateGroundVelocity flatChar).supported = true
      ∧ flatChar.linear_velocity.z - (idWorld.UpdateGroundVelocity flatChar).ground_velocity.z
        < 1 / 10 := ⟨rfl, by norm_num [flatChar, idWorld]⟩
  exact ⟨rfl, hnojump, hs, rfl,
    ((gravity_while_grounded sqrtQ strollPlayer flatChar idWorld (1 / 60) 1 rfl hnojump).1
      hs).1 rfl⟩

/-! ### C18: flying integration -/

theorem movementVel_flying (sqrt : F → F) (p : PlayerPhysics F) (c : JoltCharacter F)
    (vel : Vec3 F) (dtime : F) (hfly : p.fly_mode = true) :
    movementVel sqrt p c vel dtime = flyingVel sqrt p vel dtime := by
  simp [movementVel, hfly]

/-- C18: on a flying tick that consumes no jump, with `v` the velocity of the character, `m`
the accumulated input, `|m|` and `|v|` their lengths, the velocity handed to
`SetLinearVelocity` is `v + (3*m + 2*(d - v)) * dtime`, where `d` is zero when
`|m| < 1e-4` and `(m / |m|) * |v|` otherwise; it has no gravity term and no floor at
`-100`. -/
theorem flying_integration (sqrt : F → F) (p : PlayerPhysics F) (c : JoltCharacter F)
    (W : PhysicsWorld F) (dtime cur_time : F)
    (hfly : p.fly_mode = true)
    (hnojump : ¬ (cur_time - p.last_jump_time < JUMP_PERIOD ∧ c.supported = true)) :
    (update_pre sqrt p c W dtime cur_time).character.linear_velocity
      = c.linear_velocity
        + (p.move_desired_vel * (3 : F)
          + ((if p.move_desired_vel.length sqrt < 1 / 10000 then (⟨0, 0, 0⟩ : Vec3 F)
              else ⟨p.move_desired_vel.x / p.move_desired_vel.length sqrt
                    * c.linear_velocity.length sqrt,
                  p.move_desired_vel.y / p.move_desired_vel.length sqrt
                    * c.linear_velocity.length sqrt,
                  p.move_desired_vel.z / p.move_desired_vel.length sqrt
                    * c.linear_velocity.length sqrt⟩)
            - c.linear_velocity) * (2 : F)) * dtime := by
  have hno : jumpConsumed p c cur_time = false := (jumpConsumed_eq_false_iff _ _ _).2 hnojump
  rw [update_pre_velocity, groundSampled_flying W p c hfly, hno, if_neg Bool.false_ne_true,
    movementVel_flying sqrt p _ _ _ hfly]
  unfold flyingVel
  dsimp only
  by_cases hm : p.move_desired_vel.length sqrt < 1 / 10000
  · rw [if_pos hm, if_pos hm]
    rfl
  · have e : ∀ a L S : F, a * (1 / L) * S = a / L * S := by
      intro a L S
      ring
    rw [if_neg hm, if_neg hm]
    simp only [normalise, Vec3.scale_def, e]

/-- Square root of the square of a natural number, computed by `sqrtQ`. -/
theorem sqrtQ_sq (n : ℕ) : sqrtQ ((n * n : ℕ) : ℚ) = n := by
  unfold sqrtQ
  rw [Rat.num_natCast, Rat.den_natCast, Int.toNat_natCast, Nat.sqrt_eq, Nat.sqrt_one]
  norm_num

/-- Witness of `flying_integration`: first, falling at 200 units/s in fly mode with gravity
enabled and no input: the velocity handed over is `(0, 0, -580/3)`, below the floor of the
not-flying branch and with no gravity term; second, gliding at `(3, 4, 0)` with input
`(0, 0, 3)`: the velocity handed over is `(29/10, 58/15, 19/60)`. -/
theorem flying_integration_witness :
    flyingPlayer.fly_mode = true ∧ flyingPlayer.gravity_enabled = true ∧
    ¬ ((0 : ℚ) - flyingPlayer.last_jump_time < JUMP_PERIOD ∧ fastFallChar.supported = true) ∧
    (update_pre sqrtQ flyingPlayer fastFallChar idWorld (1 / 60) 0).character.linear_velocity
      = ⟨0, 0, -580 / 3⟩ ∧
    (-580 / 3 : ℚ) < -100 ∧
    flyUpPlayer.fly_mode = true ∧
    ¬ ((0 : ℚ) - flyUpPlayer.last_jump_time < JUMP_PERIOD ∧ glideChar.supported = true) ∧
    (update_pre sqrtQ flyUpPlayer glideChar idWorld (1 / 60) 0).character.linear_velocity
      = ⟨29 / 10, 58 / 15, 19 / 60⟩ := by
  have hn1 : ¬ ((0 : ℚ) - flyingPlayer.last_jump_time < JUMP_PERIOD
      ∧ fastFallChar.supported = true) := fun h => Bool.false_ne_true h.2
  have hn2 : ¬ ((0 : ℚ) - flyUpPlayer.last_jump_time < JUMP_PERIOD
      ∧ glideChar.supported = true) := fun h => Bool.false_ne_true h.2
  have hm1 : flyingPlayer.move_desired_vel = ⟨0, 0, 0⟩ := rfl
  have hv1 : fastFallChar.linear_velocity = ⟨0, 0, -200⟩ := rfl
  have hm2 : flyUpPlayer.move_desired_vel = ⟨0, 0, 3⟩ := by
    norm_num [flyUpPlayer, PlayerPhysics.processMoveUp, PlayerPhysics.setFlyModeEnabled,
      liveWith, PlayerPhysics.construct, move_speed, doRunFactor]
  have hv2 : glideChar.linear_velocity = ⟨3, 4, 0⟩ := rfl
  have h0 : sqrtQ 0 = 0 := by
    have := sqrtQ_sq 0
    simpa using this
  have h3 : sqrtQ 9 = 3 := by
    have := sqrtQ_sq 3
    norm_num at this
    exact this
  have h5 : sqrtQ 25 = 5 := by
    have := sqrtQ_sq 5
    norm_num at this
    exact this
  have l0 : (⟨0, 0, 0⟩ : Vec3 ℚ).length sqrtQ = 0 := by
    unfold Vec3.length Vec3.length2
    norm_num [h0]
  have l3 : (⟨0, 0, 3⟩ : Vec3 ℚ).length sqrtQ = 3 := by
    unfold Vec3.length Vec3.length2
    norm_num [h3]
  have l5 : (⟨3, 4, 0⟩ : Vec3 ℚ).length sqrtQ = 5 := by
    unfold Vec3.length Vec3.length2
    norm_num [h5]
  have e1 := flying_integration sqrtQ flyingPlayer fastFallChar idWorld (1 / 60) 0 rfl hn1
  have e2 := flying_integration sqrtQ flyUpPlayer glideChar idWorld (1 / 60) 0 rfl hn2
  rw [hm1, hv1, l0, if_pos (by norm_num)] at e1
  rw [hm2, hv2, l3, l5, if_neg (by norm_num)] at e2
  refine ⟨rfl, rfl, hn1, ?_, by norm_num, rfl, hn2, ?_⟩
  · rw [e1]
    norm_num
  · rw [e2]
    norm_num

/-! ### C19: no spontaneous jump -/

/-- C19: on a live controller whose jump latch is empty (`last_jump_time = -1`), with
`cur_time ≥ 0`, whatever the support state, `update` returns with `events.jumped = false`,
leaves `last_jump_time = -1`, and hands to `SetLinearVelocity` the velocity of the movement
block with no jump impulse added. -/
theorem no_spontaneous_jump (sqrt : F → F) (p : PlayerPhysics F) (c : JoltCharacter F)
    (W : PhysicsWorld F) (input : PlayerPhysicsInput) (dtime cur_time : F)
    (hlive : p.jolt_character = some c)
    (hlatch : p.last_jump_time = -1) (htime : 0 ≤ cur_time) :
    ∃ r, p.update sqrt W input dtime cur_time = some r ∧
      r.events.jumped = false ∧
      r.state.last_jump_time = -1 ∧
      (update_pre sqrt p c W dtime cur_time).character.linear_velocity
        = movementVel sqrt p (groundSampled W p c) c.linear_velocity dtime := by
  have hno : jumpConsumed p (groundSampled W p c) cur_time = false :=
    jumpConsumed_of_sentinel p _ cur_time hlatch (by unfold JUMP_PERIOD; linarith)
  refine ⟨_, update_of_live sqrt p c W input dtime cur_time hlive, ?_, ?_, ?_⟩
  · rw [update_post_events, update_pre_jumped, hno]
  · rw [update_post_last_jump_time, update_pre_last_jump_time, hno,
      if_neg Bool.false_ne_true, hlatch]
  · rw [update_pre_velocity, hno, if_neg Bool.false_ne_true]

/-- Witness of `no_spontaneous_jump`: a constructed controller with a live, supported
character, its latch still at the initial `-1`, updated at time 0. -/
theorem no_spontaneous_jump_witness :
    (liveWith flatChar).jolt_character = some flatChar ∧
    (liveWith flatChar).last_jump_time = -1 ∧
    (0 : ℚ) ≤ 0 ∧
    flatChar.supported = true ∧
    ∃ r, (liveWith flatChar).update sqrtQ idWorld {} (1 / 60) 0 = some r ∧
      r.events.jumped = false ∧ r.state.last_jump_time = -1 := by
  obtain ⟨r, hr, hj, hl, -⟩ := no_spontaneous_jump sqrtQ (liveWith flatChar) flatChar idWorld {}
    (1 / 60) 0 rfl rfl (le_refl 0)
  exact ⟨rfl, rfl, le_refl 0, rfl, r, hr, hj, hl⟩

/-! ### C20: teleport by eye position -/

/-- C20: for every live controller, eye position `pos` and velocities `v1`, `v2`,
`setEyePosition(pos, v1)` and `setEyePosition(pos, v2)` give the same controller state, in
which `getCapsuleBottomPosition()` is `pos - (0, 0, 1.67)`: the `linear_vel` argument has no
influence.  By contrast `setCapsuleBottomPosition(q, v)` sets the position of the character
to `q` and its linear velocity to `v`. -/
theorem teleport_by_eye_position (default_linear_vel : Vec4f F) (p : PlayerPhysics F)
    (c : JoltCharacter F) (pos q : Vec3 F) (v1 v2 v : Vec4f F)
    (hlive : p.jolt_character = some c) :
    PlayerPhysics.setEyePosition default_linear_vel p pos v1
      = PlayerPhysics.setEyePosition default_linear_vel p pos v2 ∧
    (PlayerPhysics.setEyePosition default_linear_vel p pos v1).getCapsuleBottomPosition
      = ⟨pos.x, pos.y, pos.z - 167 / 100⟩ ∧
    (p.setCapsuleBottomPosition q v).getCapsuleBottomPosition = q ∧
    (p.setCapsuleBottomPosition q v).getLinearVel = some ⟨v.x, v.y, v.z, 0⟩ := by
  refine ⟨rfl, ?_, ?_, ?_⟩
  · unfold PlayerPhysics.setEyePosition PlayerPhysics.setCapsuleBottomPosition
      PlayerPhysics.getCapsuleBottomPosition
    rw [hlive]
    show pos - (⟨0, 0, EYE_HEIGHT⟩ : Vec3 F) = _
    rw [Vec3.sub_def]
    simp [EYE_HEIGHT]
  · unfold PlayerPhysics.setCapsuleBottomPosition PlayerPhysics.getCapsuleBottomPosition
    rw [hlive]
    rfl
  · unfold PlayerPhysics.setCapsuleBottomPosition PlayerPhysics.getLinearVel
    rw [hlive]
    rfl

/-- Witness of `teleport_by_eye_position`: teleporting the controller on flat ground to the
eye position `(1, 2, 3)` with two different velocities. -/
theorem teleport_by_eye_position_witness :
    (liveWith flatChar).jolt_character = some flatChar ∧
    PlayerPhysics.setEyePosition ⟨0, 0, 0, 0⟩ (liveWith flatChar) ⟨1, 2, 3⟩ ⟨5, 0, 0, 0⟩
      = PlayerPhysics.setEyePosition ⟨0, 0, 0, 0⟩ (liveWith flatChar) ⟨1, 2, 3⟩ ⟨0, 7, 0, 0⟩ ∧
    (PlayerPhysics.setEyePosition ⟨0, 0, 0, 0⟩ (liveWith flatChar) ⟨1, 2, 3⟩
        ⟨5, 0, 0, 0⟩).getCapsuleBottomPosition
      = ⟨1, 2, 3 - 167 / 100⟩ ∧
    ((liveWith flatChar).setCapsuleBottomPosition ⟨1, 2, 3⟩ ⟨5, 0, 0, 0⟩).getLinearVel
      = some ⟨5, 0, 0, 0⟩ := by
  obtain ⟨h1, h2, -, h4⟩ := teleport_by_eye_position (⟨0, 0, 0, 0⟩ : Vec4f ℚ)
    (liveWith flatChar) flatChar ⟨1, 2, 3⟩ ⟨1, 2, 3⟩ ⟨5, 0, 0, 0⟩ ⟨0, 7, 0, 0⟩ ⟨5, 0, 0, 0⟩ rfl
  exact ⟨rfl, h1, h2, h4⟩

end Theorems

end Metasiberia
